import Mathlib

/-!
Verification of the multicast OTA session/fragment state machine of
`update-client-hub/modules/multicast/libota.c` (mbed-cloud-client).

The module's pure computations are embedded as Lean functions and its
stateful handlers as explicit state-passing functions over a record
`OtaLib` mirroring the module's globals (`ota_parameters`,
`ota_checksum_calculating_ptr`, the service flags, and the armed timers).
Machine integers are modelled as `Nat`, with `% 2^16` at 16-bit
assignments where overflow could matter.  External collaborators
(firmware storage, the SHA-256 primitive, the random generator) are
passed in as explicit parameters; storage reads and writes and the
parameter-store callbacks are modelled on their success path, which the
specification places out of scope.  Calls to
`ota_update_resource_value_fptr` / trace logging are pure notifications
and are not modelled; calls to `ota_write_fw_bytes_fptr` and
`ota_send_update_fw_cmd_received_info_fptr` are recorded in event logs
so that claims about them are statable.
-/

namespace LibOta

/-- OTA_CHECKSUM_CALCULATING_BYTE_COUNT (libota.c line 43). -/
def OTA_CHECKSUM_CALCULATING_BYTE_COUNT : Nat := 512

/-- OTA_NOTIFICATION_TIMER_DELAY, seconds (libota.c line 50). -/
def OTA_NOTIFICATION_TIMER_DELAY : Nat := 2

/-- OTA_TIMER_RANDOM_WINDOW, seconds (libota.c line 49). -/
def OTA_TIMER_RANDOM_WINDOW : Nat := 60

/-- OTA_MISSING_FRAGMENTS_REQUESTING_TIMEOUT_START, seconds (libota.c line 47). -/
def OTA_MISSING_FRAGMENTS_REQUESTING_TIMEOUT_START : Nat := 30

/-- OTA_FRAGMENTS_REQUEST_SERVICE_TIMEOUT_START, seconds (libota.c line 48). -/
def OTA_FRAGMENTS_REQUEST_SERVICE_TIMEOUT_START : Nat := 5

/-- OTA_MISSING_FRAGMENT_FALLBACK_TIMEOUT, seconds (libota.c line 68). -/
def OTA_MISSING_FRAGMENT_FALLBACK_TIMEOUT : Nat := 1800

/-- Modelled from the spec: `OTA_SEGMENT_SIZE` from libota.h (not under src/);
the spec fixes it: "128 = `SEGMENT_SIZE` (fragments per recovery segment)". -/
def OTA_SEGMENT_SIZE : Nat := 128

/-- Modelled from the spec: `OTA_FRAGMENTS_REQ_BITMASK_LENGTH` from libota.h
(not under src/); the spec fixes the per-segment request bitmask at 16 bytes
("a 16-byte bitmask") and `fragments_bitmask` length at `fw_segment_count x 16`. -/
def OTA_FRAGMENTS_REQ_BITMASK_LENGTH : Nat := 16

/-- Modelled from the spec: `OTA_FRAGMENT_SIZE` from libota.h (not under src/);
the spec fixes the default fragment payload size at 1024 bytes. -/
def OTA_FRAGMENT_SIZE : Nat := 1024

/-- Modelled from the spec: `OTA_SESSION_ID_SIZE` from libota.h (not under
src/); the spec fixes the session id at 16 bytes. -/
def OTA_SESSION_ID_SIZE : Nat := 16

/-- Modelled from the spec: `OTA_WHOLE_FW_CHECKSUM_LENGTH` from libota.h (not
under src/); the spec fixes the whole-image checksum at 32 bytes (SHA-256). -/
def OTA_WHOLE_FW_CHECKSUM_LENGTH : Nat := 32

/-- Modelled from the spec: device-type codes from libota.h (not under src/).
The spec names two device types, border-router and node; a freshly zeroed
parameter struct carries device type 0, distinct from both codes. -/
def OTA_DEVICE_TYPE_BORDER_ROUTER : Nat := 1

/-- Modelled from the spec: node device-type code, see
`OTA_DEVICE_TYPE_BORDER_ROUTER`. -/
def OTA_DEVICE_TYPE_NODE : Nat := 2

/-- The states of `ota_state_e` (libota.h, named throughout libota.c).
`IDLE` is listed first: it is the zero value a memset of the parameter
struct produces, and the spec ties `IDLE` to the no-session state. -/
inductive OtaState where
  | IDLE
  | STARTED
  | ABORTED
  | MISSING_FRAGMENTS_REQUESTING
  | CHECKSUM_CALCULATING
  | CHECKSUM_FAILED
  | PROCESS_COMPLETED
  | UPDATE_FW
  | MANIFEST_RECEIVED
  | INVALID
  deriving DecidableEq, Repr

/-- The timers of `ota_timers_e` (libota.h, named throughout libota.c). -/
inductive OtaTimer where
  | ACTIVATE_TIMER
  | END_FRAGMENTS_TIMER
  | MISSING_FRAGMENTS_REQUESTING_TIMER
  | FRAGMENTS_DELIVERING_TIMER
  | FRAGMENTS_REQUEST_SERVICE_TIMER
  | FALLBACK_TIMER
  | CHECKSUM_CALCULATING_TIMER
  | MULTICAST_MESSAGE_SENT_TIMER
  | FIRMWARE_READY_TIMER
  deriving DecidableEq, Repr

/-- `ota_error_code_e` return codes used by the embedded functions. -/
inductive OtaError where
  | OTA_OK
  | OTA_PARAMETER_FAIL
  deriving DecidableEq, Repr

/-- `ota_parameters_t`: the persisted session parameters (libota.h; fields as
used throughout libota.c).  The bitmask pointer/length pair is modelled as a
byte list plus the stored length field. -/
structure OtaParameters where
  ota_session_id : List Nat
  device_type : Nat
  ota_process_count : Nat
  ota_state : OtaState
  fw_total_byte_count : Nat
  fw_fragment_byte_count : Nat
  fw_fragment_count : Nat
  fw_segment_count : Nat
  whole_fw_checksum_tbl : List Nat
  fragments_bitmask_length : Nat
  fragments_bitmask : List Nat
  deriving DecidableEq, Repr

/-- The zeroed `ota_parameters_t` produced by `memset(&ota_parameters, 0,
sizeof(ota_parameters_t))`. -/
def zeroedParameters : OtaParameters where
  ota_session_id := List.replicate OTA_SESSION_ID_SIZE 0
  device_type := 0
  ota_process_count := 0
  ota_state := .IDLE
  fw_total_byte_count := 0
  fw_fragment_byte_count := 0
  fw_fragment_count := 0
  fw_segment_count := 0
  whole_fw_checksum_tbl := List.replicate OTA_WHOLE_FW_CHECKSUM_LENGTH 0
  fragments_bitmask_length := 0
  fragments_bitmask := []

/-- The module state: `ota_parameters` plus libota.c's file-scope globals.
`sha_ctx` models `ota_checksum_calculating_ptr.ota_sha256_context_ptr` as
`some bytesFedSoFar` when allocated; `checksum_cursor` is `current_byte_id`.
`armed_timers` records each armed timer with the millisecond start time
passed to `ota_request_timer_fptr`.  `write_log` records each
`ota_write_fw_bytes_fptr` call as (offset, byte count) and `sent_info_log`
each `ota_send_update_fw_cmd_received_info_fptr(delay)` call. -/
structure OtaLib where
  params : OtaParameters
  config_device_type : Nat
  own_device_type : Bool
  fragments_request_service : Bool
  fw_delivering : Bool
  fw_deliver_current_fragment_id : Nat
  fw_update_received : Bool
  update_fw_delay : Nat
  fragments_request_service_segment_id : Nat
  fragments_request_service_bitmask_tbl : List Nat
  checksum_cursor : Nat
  sha_ctx : Option (List Nat)
  armed_timers : List (OtaTimer × Nat)
  write_log : List (Nat × Nat)
  sent_info_log : List Nat
  deriving DecidableEq, Repr

/-- `ota_cancel_timer_fptr`: drop the timer from the armed set. -/
def cancelTimer (ts : List (OtaTimer × Nat)) (t : OtaTimer) : List (OtaTimer × Nat) :=
  ts.filter (fun p => p.1 ≠ t)

/-- `ota_start_timer` (libota.c lines 1396-1405): cancel, scale seconds to
milliseconds, add `100 * (rand % (window * 10))` when a random window is
given, then request the timer.  `rand` stands for `randLIB_get_32bit()`. -/
def ota_start_timer (ts : List (OtaTimer × Nat)) (t : OtaTimer)
    (start_time random_window rand : Nat) : List (OtaTimer × Nat) :=
  let ms := start_time * 1000 +
    (if random_window ≠ 0 then 100 * (rand % (random_window * 10)) else 0)
  cancelTimer ts t ++ [(t, ms)]

/-- Look up the armed start time of a timer. -/
def armedTime (ts : List (OtaTimer × Nat)) (t : OtaTimer) : Option Nat :=
  (ts.find? (fun p => p.1 = t)).map (·.2)

/-- One byte step of `ota_calculate_checksum_over_one_fragment`
(libota.c lines 1260-1267); `returned_crc` is a uint16_t, so each
assignment truncates to 16 bits. -/
def crcStep (crc c : Nat) : Nat :=
  let q1 := (crc ^^^ c) &&& 0x0f
  let crc1 := ((crc >>> 4) ^^^ (q1 * 0x1081)) % 65536
  let q2 := (crc1 ^^^ (c >>> 4)) &&& 0xf
  ((crc1 >>> 4) ^^^ (q2 * 0x1081)) % 65536

/-- `ota_calculate_checksum_over_one_fragment` (libota.c lines 1253-1271):
fold `crcStep` over the fragment bytes starting from 0. -/
def ota_calculate_checksum_over_one_fragment (data : List Nat) : Nat :=
  data.foldl crcStep 0

/-- The nibble-table CRC-16 exactly as the specification words it: start
from crc = 0 and, for each input byte c in order,
`q = (crc ^ c) & 0xF; crc = (crc>>4) ^ (q*0x1081);
 q = (crc ^ (c>>4)) & 0xF; crc = (crc>>4) ^ (q*0x1081)`. -/
def specCrcStep (crc c : Nat) : Nat :=
  let q1 := (crc ^^^ c) &&& 0xF
  let crc1 := (crc >>> 4) ^^^ (q1 * 0x1081)
  let q2 := (crc1 ^^^ (c >>> 4)) &&& 0xF
  (crc1 >>> 4) ^^^ (q2 * 0x1081)

/-- The specification's CRC over a byte sequence. -/
def specCrc (data : List Nat) : Nat :=
  data.foldl specCrcStep 0

/-- OTA_CHECKSUM_CALCULATING_INTERVAL, milliseconds (libota.c line 44). -/
def OTA_CHECKSUM_CALCULATING_INTERVAL : Nat := 10

/-- `ota_request_timer_fptr`: (re)arm a timer with a millisecond start time. -/
def requestTimer (ts : List (OtaTimer × Nat)) (t : OtaTimer) (ms : Nat) :
    List (OtaTimer × Nat) :=
  cancelTimer ts t ++ [(t, ms)]

/-- Byte index of fragment `fid` (1-indexed) in the fragments bitmask: the
bit for fragment f lives at byte `(len - 1) - ((f-1) / 8)` (the layout used
at libota.c lines 643, 1002, 1502-1518). -/
def fragBitIdx (len fid : Nat) : Nat := (len - 1) - ((fid - 1) / 8)

/-- Bit position of fragment `fid` inside its bitmask byte: `(f-1) % 8`. -/
def fragBitPos (fid : Nat) : Nat := (fid - 1) % 8

/-- Whether the bitmask bit of fragment `fid` is set. -/
def fragmentBitSet (mask : List Nat) (len fid : Nat) : Bool :=
  mask.getD (fragBitIdx len fid) 0 &&& (1 <<< fragBitPos fid) != 0

/-- `ota_check_if_fragment_already_received` (libota.c lines 1000-1011). -/
def ota_check_if_fragment_already_received (p : OtaParameters)
    (fragment_id : Nat) : Bool :=
  fragmentBitSet p.fragments_bitmask p.fragments_bitmask_length fragment_id

/-- The bit update of libota.c lines 643-647: OR the fragment's bit into its
bitmask byte. -/
def setFragmentBit (mask : List Nat) (len fid : Nat) : List Nat :=
  mask.set (fragBitIdx len fid)
    (mask.getD (fragBitIdx len fid) 0 ||| (1 <<< fragBitPos fid))

/-- Number of zero bits in one bitmask byte (the inner loop of
`ota_get_missing_fragment_total_count`, libota.c lines 1021-1027). -/
def countZeroBitsInByte (b : Nat) : Nat :=
  (List.range 8).countP (fun bit_counter => b &&& (1 <<< bit_counter) = 0)

/-- The byte walk of `ota_get_missing_fragment_total_count` (libota.c lines
1018-1028): starting from `fragment_id = 1` at the last bitmask byte
(`k = 0` bytes consumed), count the zero bits of each byte, eight fragment
ids per byte, while `fragment_id <= count`. -/
def missingLoop (mask : List Nat) (len count : Nat) (fid k : Nat) : Nat :=
  if fid ≤ count then
    countZeroBitsInByte (mask.getD (len - 1 - k) 0) +
      missingLoop mask len count (fid + 8) (k + 1)
  else 0
termination_by count + 1 - fid
decreasing_by omega

/-- `ota_get_missing_fragment_total_count` (libota.c lines 1013-1031). -/
def ota_get_missing_fragment_total_count (p : OtaParameters) : Nat :=
  missingLoop p.fragments_bitmask p.fragments_bitmask_length
    p.fw_fragment_count 1 0

/-- The fragment-bit loop of `ota_init_fragments_bit_mask` (libota.c lines
1502-1519) applied to the first `n` fragment counters: counter `m` clears
(init value 0) or sets (otherwise) bit `m % 8` of byte `len - 1 - m / 8`. -/
def initLoop (len init_value : Nat) (mask : List Nat) : Nat → List Nat
  | 0 => mask
  | n + 1 =>
    let m := initLoop len init_value mask n
    let idx := len - 1 - n / 8
    let b := m.getD idx 0
    m.set idx
      (if init_value = 0 then b &&& (255 ^^^ (1 <<< (n % 8)))
       else b ||| (1 <<< (n % 8)))

/-- `ota_init_fragments_bit_mask` (libota.c lines 1494-1521): on the
allocated bitmask, memset every byte to 0xFF, then walk fragment counters
`0 .. fw_fragment_count - 1` clearing (init value 0) or setting each
fragment's bit. -/
def ota_init_fragments_bit_mask (p : OtaParameters) (init_value : Nat) :
    OtaParameters :=
  { p with fragments_bitmask :=
      (initLoop p.fragments_bitmask_length init_value
        (List.replicate p.fragments_bitmask_length 255) p.fw_fragment_count) }

/-- `ota_add_new_process` (libota.c lines 1523-1547).  The
`store_new_ota_process` callback is modelled on its success path.
`ota_parameters.ota_process_count++` is followed immediately by
`memset(&ota_parameters, 0, sizeof(ota_parameters_t))`, which wipes the
whole struct — the just-incremented count included — before the session id
is copied back in. -/
def ota_add_new_process (s : OtaLib) (session_id : List Nat) :
    OtaLib × OtaError :=
  if s.params.ota_process_count > 0 then
    (s, .OTA_PARAMETER_FAIL)
  else
    ({ s with params := { zeroedParameters with ota_session_id := session_id } },
      .OTA_OK)

/-- A START command after its header, structurally parsed (the codec's
big-endian field reads are out of scope of the claims on this path). -/
structure StartCmd where
  session_id : List Nat
  device_type : Nat
  fw_fragment_count : Nat
  fw_fragment_byte_count : Nat
  fw_total_byte_count : Nat
  whole_fw_checksum_tbl : List Nat
  deriving DecidableEq, Repr

/-- `ota_parse_start_command_parameters` (libota.c lines 531-573): copy the
command fields into the session parameters; `fw_segment_count` is
`fw_fragment_count / OTA_SEGMENT_SIZE`, incremented when the division has a
remainder.  The source always returns OTA_OK. -/
def ota_parse_start_command_parameters (p : OtaParameters) (cmd : StartCmd) :
    OtaParameters :=
  let seg0 := cmd.fw_fragment_count / OTA_SEGMENT_SIZE
  let seg := if cmd.fw_fragment_count % OTA_SEGMENT_SIZE ≠ 0 then seg0 + 1 else seg0
  { p with
    ota_session_id := cmd.session_id
    device_type := cmd.device_type
    fw_fragment_count := cmd.fw_fragment_count
    fw_segment_count := seg
    fw_fragment_byte_count := cmd.fw_fragment_byte_count
    fw_total_byte_count := cmd.fw_total_byte_count
    whole_fw_checksum_tbl := cmd.whole_fw_checksum_tbl }

/-- `ota_manage_start_command` (libota.c lines 362-440).  The payload-length
check is modelled structurally; allocation, parameter storing and the
`start_received` callback are modelled on their success paths. -/
def ota_manage_start_command (s : OtaLib) (cmd : StartCmd) :
    OtaLib × OtaError :=
  if s.params.device_type = cmd.device_type then
    (s, .OTA_PARAMETER_FAIL)
  else if cmd.device_type ≠ s.config_device_type then
    (s, .OTA_PARAMETER_FAIL)
  else
    match ota_add_new_process s cmd.session_id with
    | (_, .OTA_PARAMETER_FAIL) => (s, .OTA_PARAMETER_FAIL)
    | (s1, .OTA_OK) =>
      let p := ota_parse_start_command_parameters s1.params cmd
      let p := { p with fragments_bitmask_length :=
                  (p.fw_segment_count * OTA_FRAGMENTS_REQ_BITMASK_LENGTH) }
      let p := ota_init_fragments_bit_mask p 0x00
      let ts := ota_start_timer s1.armed_timers .FALLBACK_TIMER
        OTA_MISSING_FRAGMENT_FALLBACK_TIMEOUT 0 0
      let p := { p with ota_state := .STARTED }
      let own := if p.device_type = s1.config_device_type then true
                 else s1.own_device_type
      ({ s1 with params := p, armed_timers := ts, own_device_type := own },
        .OTA_OK)

/-- The border router's FIRMWARE command after its header (the
`OTA_CMD_TYPE_URL_DATA` payload of libota.c lines 475-504); the pull url is
carried but not further used by the claims. -/
structure FirmwareCmd where
  session_id : List Nat
  fw_total_byte_count : Nat
  whole_fw_checksum_tbl : List Nat
  pull_url : List Nat
  deriving DecidableEq, Repr

/-- The `command_id == OTA_CMD_FIRMWARE`, `command_type ==
OTA_CMD_TYPE_URL_DATA` branch of `ota_border_router_manage_command`
(libota.c lines 442-529): after the multicast-version check and
`ota_add_new_process`, derive the fragment geometry from the firmware size;
`fw_segment_count` is `fw_fragment_count / OTA_SEGMENT_SIZE` with no
remainder correction (line 486).  The pull-url allocation and the
`start_received` / `store_parameters` callbacks are modelled on their
success paths. -/
def ota_border_router_manage_firmware_command (s : OtaLib)
    (multicast_version : Nat) (cmd : FirmwareCmd) : OtaLib × OtaError :=
  if multicast_version ≠ 1 then (s, .OTA_PARAMETER_FAIL)
  else
    match ota_add_new_process s cmd.session_id with
    | (_, .OTA_PARAMETER_FAIL) => (s, .OTA_PARAMETER_FAIL)
    | (s1, .OTA_OK) =>
      let p := { s1.params with
                  fw_total_byte_count := cmd.fw_total_byte_count
                  whole_fw_checksum_tbl := cmd.whole_fw_checksum_tbl
                  fw_fragment_byte_count := OTA_FRAGMENT_SIZE }
      let count0 := p.fw_total_byte_count / p.fw_fragment_byte_count
      let count := if p.fw_total_byte_count % p.fw_fragment_byte_count ≠ 0
                   then count0 + 1 else count0
      let p := { p with fw_fragment_count := count }
      let p := { p with fw_segment_count := p.fw_fragment_count / OTA_SEGMENT_SIZE }
      let p := { p with ota_state := .STARTED }
      ({ s1 with params := p }, .OTA_OK)

/-- `ota_manage_whole_fw_checksum_calculating` (libota.c lines 1273-1394).
`storage` gives the byte of the stored image at each offset
(`ota_read_fw_bytes_fptr` on its success path, so `read_byte_count` equals
the requested count); `sha256` is the external SHA-256 primitive applied to
all bytes fed to the incremental context; `rand` stands for the
`randLIB_get_32bit()` draw of a randomized timer start.  On the
border-router match path, `ota_build_and_send_multicast_command
(OTA_CMD_FIRMWARE)` arms the delivering timer and enters delivering mode
(libota.c lines 1700-1705); the multicast socket send itself is a
notification and is not modelled. -/
def ota_manage_whole_fw_checksum_calculating (s : OtaLib)
    (storage : Nat → Nat) (sha256 : List Nat → List Nat) (rand : Nat) :
    OtaLib :=
  if s.params.ota_state = .CHECKSUM_CALCULATING then
    match s.sha_ctx with
    | none =>
      let s1 := { s with checksum_cursor := 0, sha_ctx := some [] }
      { s1 with armed_timers :=
          (requestTimer s1.armed_timers .CHECKSUM_CALCULATING_TIMER
            OTA_CHECKSUM_CALCULATING_INTERVAL) }
    | some fed =>
      let total := s.params.fw_total_byte_count
      let pushed :=
        if s.checksum_cursor + OTA_CHECKSUM_CALCULATING_BYTE_COUNT > total
        then total - s.checksum_cursor
        else OTA_CHECKSUM_CALCULATING_BYTE_COUNT
      let bytes := (List.range pushed).map (fun i => storage (s.checksum_cursor + i))
      let cursor := s.checksum_cursor + pushed
      let fedAll := fed ++ bytes
      if cursor = total then
        let result := sha256 fedAll
        let s1 := { s with checksum_cursor := cursor, sha_ctx := none }
        if result = s.params.whole_fw_checksum_tbl then
          let s2 := { s1 with params :=
                      { s1.params with ota_state := .PROCESS_COMPLETED } }
          if s.config_device_type = OTA_DEVICE_TYPE_BORDER_ROUTER then
            { s2 with
              armed_timers := (ota_start_timer s2.armed_timers
                .FRAGMENTS_DELIVERING_TIMER 60 0 rand)
              fw_delivering := true
              fw_deliver_current_fragment_id := 1 }
          else
            let ts := ota_start_timer s2.armed_timers .END_FRAGMENTS_TIMER
              OTA_NOTIFICATION_TIMER_DELAY OTA_TIMER_RANDOM_WINDOW rand
            { s2 with armed_timers :=
                (ota_start_timer ts .FIRMWARE_READY_TIMER 1 0 rand) }
        else
          { s1 with params := { s1.params with ota_state := .CHECKSUM_FAILED } }
      else
        { s with checksum_cursor := cursor, sha_ctx := some fedAll,
                 armed_timers :=
                   (requestTimer s.armed_timers .CHECKSUM_CALCULATING_TIMER
                     OTA_CHECKSUM_CALCULATING_INTERVAL) }
  else s

/-- The scan outcome of one service-bitmask byte inside
`ota_get_next_missing_fragment_id_for_requester` (libota.c lines
1232-1248): a missing fragment id was found (with the possibly updated
byte), the id range ran past `fw_fragment_count` (the byte is forced to
0xFF and the inner loop breaks), or all eight bits were set. -/
inductive NmScan where
  | found (fragment_id : Nat)
  | broke (fragment_id : Nat)
  | exhausted (fragment_id : Nat)
  deriving DecidableEq, Repr

/-- The inner bit loop of `ota_get_next_missing_fragment_id_for_requester`
over byte `b`, bits `bit_counter .. 7`, with `fragment_id` advancing per
bit.  On a zero bit the fragment id is returned and, when
`bit_mask_change` holds, the bit is added into the byte. -/
def nmInnerScan (count : Nat) (bit_mask_change : Bool) (b fid bit_counter : Nat) :
    NmScan × Nat :=
  if bit_counter ≥ 8 then (.exhausted fid, b)
  else if fid > count then (.broke fid, 255)
  else if b &&& (1 <<< bit_counter) = 0 then
    (.found fid, if bit_mask_change then b + (1 <<< bit_counter) else b)
  else nmInnerScan count bit_mask_change b (fid + 1) (bit_counter + 1)
termination_by 8 - bit_counter
decreasing_by omega

/-- The outer byte loop of `ota_get_next_missing_fragment_id_for_requester`
(libota.c lines 1232-1248), walking indices `i-1, i-2, .., 0` of the
16-byte service bitmask. -/
def nmOuterScan (count : Nat) (bit_mask_change : Bool) (tbl : List Nat)
    (fid : Nat) : Nat → Nat × List Nat
  | 0 => (0, tbl)
  | i + 1 =>
    match nmInnerScan count bit_mask_change (tbl.getD i 0) fid 0 with
    | (.found f, b) => (f, tbl.set i b)
    | (.broke f, b) => nmOuterScan count bit_mask_change (tbl.set i b) f i
    | (.exhausted f, _) => nmOuterScan count bit_mask_change tbl f i

/-- `ota_get_next_missing_fragment_id_for_requester` (libota.c lines
1223-1251): returns the first requested-and-missing fragment id of the
segment being served (0 when none) and the possibly updated module state
(the function mutates `ota_fragments_request_service_bitmask_tbl`). -/
def ota_get_next_missing_fragment_id_for_requester (s : OtaLib)
    (bit_mask_change : Bool) : Nat × OtaLib :=
  let fragment_id :=
    1 + (s.fragments_request_service_segment_id - 1) * OTA_SEGMENT_SIZE
  if fragment_id > s.params.fw_fragment_count then (0, s)
  else
    let r := nmOuterScan s.params.fw_fragment_count bit_mask_change
      s.fragments_request_service_bitmask_tbl fragment_id
      OTA_FRAGMENTS_REQ_BITMASK_LENGTH
    (r.1, { s with fragments_request_service_bitmask_tbl := r.2 })

/-- A FRAGMENT command after its header: fragment id, the
`fw_fragment_byte_count` data bytes, and the transmitted 16-bit CRC. -/
structure FragmentCmd where
  session_id : List Nat
  fragment_id : Nat
  fragment_bytes : List Nat
  checksum : Nat
  deriving DecidableEq, Repr

/-- `ota_manage_fragment_command` (libota.c lines 575-729).  `check_session`
and the payload-length check come first; the state gate admits STARTED,
MISSING_FRAGMENTS_REQUESTING, or an ongoing fragments-request service.  On a
valid fragment (matching CRC, id within 1..fw_fragment_count) not yet
received, the firmware bytes are written (`ota_write_fw_bytes_fptr` on its
success path, recorded in `write_log`), the fragment's bit is set, and
either checksum calculating starts (no fragment missing) or the fallback
timer is re-armed.  `rand` stands for the `randLIB_get_32bit()` draw of a
randomized timer start. -/
def ota_manage_fragment_command (s : OtaLib) (cmd : FragmentCmd)
    (storage : Nat → Nat) (sha256 : List Nat → List Nat) (rand : Nat) :
    OtaLib :=
  if cmd.session_id ≠ s.params.ota_session_id then s
  else if s.params.ota_state ≠ .STARTED ∧
      s.params.ota_state ≠ .MISSING_FRAGMENTS_REQUESTING ∧
      s.fragments_request_service = false then s
  else
    let fragment_id := cmd.fragment_id
    let calculated := ota_calculate_checksum_over_one_fragment cmd.fragment_bytes
    let s1 :=
      if cmd.checksum = calculated ∧ 0 < fragment_id ∧
          fragment_id ≤ s.params.fw_fragment_count then
        if s.fragments_request_service = false then
          if ota_check_if_fragment_already_received s.params fragment_id = false then
            let offset := (fragment_id - 1) * s.params.fw_fragment_byte_count
            let len :=
              if offset + s.params.fw_fragment_byte_count >
                  s.params.fw_total_byte_count
              then s.params.fw_total_byte_count - offset
              else s.params.fw_fragment_byte_count
            let p := { s.params with fragments_bitmask :=
                        (setFragmentBit s.params.fragments_bitmask
                          s.params.fragments_bitmask_length fragment_id) }
            let s2 := { s with params := p,
                               write_log := s.write_log ++ [(offset, len)] }
            if ota_get_missing_fragment_total_count s2.params = 0 then
              let s3 := { s2 with params :=
                          { s2.params with ota_state := .CHECKSUM_CALCULATING } }
              ota_manage_whole_fw_checksum_calculating s3 storage sha256 rand
            else
              { s2 with armed_timers :=
                  (ota_start_timer s2.armed_timers .FALLBACK_TIMER
                    OTA_MISSING_FRAGMENT_FALLBACK_TIMEOUT 0 rand) }
          else s
        else
          let segment_id := (fragment_id - 1) / OTA_SEGMENT_SIZE + 1
          let s2 :=
            if segment_id = s.fragments_request_service_segment_id then
              let idx := (OTA_FRAGMENTS_REQ_BITMASK_LENGTH - 1) -
                ((fragment_id - 1) % OTA_SEGMENT_SIZE / 8)
              let bit := 1 <<< ((fragment_id - 1) % 8)
              { s with fragments_request_service_bitmask_tbl :=
                  (s.fragments_request_service_bitmask_tbl.set idx
                    (s.fragments_request_service_bitmask_tbl.getD idx 0 ||| bit)) }
            else s
          let r := ota_get_next_missing_fragment_id_for_requester s2 false
          if r.1 > 0 then
            { r.2 with armed_timers :=
                (ota_start_timer r.2.armed_timers .FRAGMENTS_REQUEST_SERVICE_TIMER
                  OTA_FRAGMENTS_REQUEST_SERVICE_TIMEOUT_START
                  OTA_TIMER_RANDOM_WINDOW rand) }
          else
            { r.2 with
              armed_timers :=
                (cancelTimer r.2.armed_timers .FRAGMENTS_REQUEST_SERVICE_TIMER)
              fragments_request_service := false }
      else s
    if s1.params.ota_state = .MISSING_FRAGMENTS_REQUESTING ∧
        0 < ota_get_missing_fragment_total_count s1.params then
      { s1 with armed_timers :=
          (ota_start_timer s1.armed_timers .MISSING_FRAGMENTS_REQUESTING_TIMER
            OTA_MISSING_FRAGMENTS_REQUESTING_TIMEOUT_START
            OTA_TIMER_RANDOM_WINDOW rand) }
    else s1

/-- `ota_manage_abort_command` (libota.c lines 731-785): after
`check_session` and the length check, clear the service and delivering
flags; when checksum calculating was in progress, free the SHA-256 context
(the in-progress record is zeroed); move every state except ABORTED and
UPDATE_FW to ABORTED and store.  The status-resource update and the border
router's `process_finished` callback are notifications and are not
modelled; no timer is cancelled. -/
def ota_manage_abort_command (s : OtaLib) (session_id : List Nat) : OtaLib :=
  if session_id ≠ s.params.ota_session_id then s
  else
    let s1 := { s with fragments_request_service := false, fw_delivering := false }
    let s2 :=
      if s1.params.ota_state = .CHECKSUM_CALCULATING then
        { s1 with sha_ctx := none, checksum_cursor := 0 }
      else s1
    if s2.params.ota_state ≠ .ABORTED then
      if s2.params.ota_state ≠ .UPDATE_FW then
        { s2 with params := { s2.params with ota_state := .ABORTED } }
      else s2
    else s2

/-- An ACTIVATE command after its header (`ota_manage_update_fw_command`
reads no session id check; the device type and the 32-bit delay follow the
header). -/
structure ActivateCmd where
  session_id : List Nat
  device_type : Nat
  delay_seconds : Nat
  deriving DecidableEq, Repr

/-- `ota_manage_update_fw_command` (libota.c lines 871-935): cancel the
missing-fragments-requesting and fallback timers; require state
PROCESS_COMPLETED or UPDATE_FW and the node's own device type; on the first
ACTIVATE store the delay and arm the ACTIVATE timer with start
OTA_NOTIFICATION_TIMER_DELAY and window OTA_TIMER_RANDOM_WINDOW; move the
state to UPDATE_FW. -/
def ota_manage_update_fw_command (s : OtaLib) (cmd : ActivateCmd)
    (rand : Nat) : OtaLib :=
  let s0 := { s with armed_timers :=
      (cancelTimer (cancelTimer s.armed_timers .MISSING_FRAGMENTS_REQUESTING_TIMER)
        .FALLBACK_TIMER) }
  if s0.params.ota_state ≠ .PROCESS_COMPLETED ∧
      s0.params.ota_state ≠ .UPDATE_FW then s0
  else if cmd.device_type ≠ s0.config_device_type then s0
  else
    let s1 :=
      if s0.fw_update_received = false then
        { s0 with
          update_fw_delay := cmd.delay_seconds
          armed_timers := (ota_start_timer s0.armed_timers .ACTIVATE_TIMER
            OTA_NOTIFICATION_TIMER_DELAY OTA_TIMER_RANDOM_WINDOW rand)
          fw_update_received := true }
      else s0
    if s1.params.ota_state ≠ .UPDATE_FW then
      { s1 with params := { s1.params with ota_state := .UPDATE_FW } }
    else s1

/-- The `OTA_ACTIVATE_TIMER` branch of `ota_timer_expired` (libota.c lines
282-290): the expired timer is cancelled and, in state PROCESS_COMPLETED or
UPDATE_FW, `ota_send_update_fw_cmd_received_info_fptr(ota_update_fw_delay)`
is invoked (recorded in `sent_info_log`).  The other branches of the
dispatcher serve other timers and are embedded with the handlers the
claims need. -/
def ota_timer_expired_activate (s : OtaLib) : OtaLib :=
  let s0 := { s with armed_timers := cancelTimer s.armed_timers .ACTIVATE_TIMER }
  if s0.params.ota_state = .PROCESS_COMPLETED ∨
      s0.params.ota_state = .UPDATE_FW then
    { s0 with sent_info_log := s0.sent_info_log ++ [s0.update_fw_delay] }
  else s0

/-- A socket arrival order of FRAGMENT commands, applied in sequence (the
randomized timer draws do not influence the bitmask, so they are fixed
at 0). -/
def applyFragments (s : OtaLib) (cmds : List FragmentCmd)
    (storage : Nat → Nat) (sha256 : List Nat → List Nat) : OtaLib :=
  cmds.foldl (fun st c => ota_manage_fragment_command st c storage sha256 0) s

/-- The guard under which `ota_manage_fragment_command` stores firmware
bytes and sets the fragment's bit (the conjunction of the session check,
the state gate, the validity checks of libota.c lines 623-624, the
not-serving check and the already-received check). -/
def FragWriteCond (s : OtaLib) (cmd : FragmentCmd) : Prop :=
  cmd.session_id = s.params.ota_session_id ∧
  (s.params.ota_state = .STARTED ∨
    s.params.ota_state = .MISSING_FRAGMENTS_REQUESTING ∨
    s.fragments_request_service = true) ∧
  cmd.checksum = ota_calculate_checksum_over_one_fragment cmd.fragment_bytes ∧
  0 < cmd.fragment_id ∧ cmd.fragment_id ≤ s.params.fw_fragment_count ∧
  s.fragments_request_service = false ∧
  ota_check_if_fragment_already_received s.params cmd.fragment_id = false

/-- The write offset of a stored fragment (libota.c line 630). -/
def fragWriteOffset (s : OtaLib) (cmd : FragmentCmd) : Nat :=
  (cmd.fragment_id - 1) * s.params.fw_fragment_byte_count

/-- The write length of a stored fragment, clipped at the image end
(libota.c lines 631-635). -/
def fragWriteLen (s : OtaLib) (cmd : FragmentCmd) : Nat :=
  if fragWriteOffset s cmd + s.params.fw_fragment_byte_count >
      s.params.fw_total_byte_count
  then s.params.fw_total_byte_count - fragWriteOffset s cmd
  else s.params.fw_fragment_byte_count

/-- The receiving-node invariant carried across FRAGMENT processing: no
fragments-request service is being served, the bitmask list length agrees
with the stored length field, the fragment count fits in the bitmask, at
least one fragment exists, the bitmask holds bytes, and whenever the state
is no longer a receiving state every fragment's bit is set. -/
def ReceivingInvariant (s : OtaLib) : Prop :=
  s.fragments_request_service = false ∧
  s.params.fragments_bitmask.length = s.params.fragments_bitmask_length ∧
  s.params.fw_fragment_count ≤ 8 * s.params.fragments_bitmask_length ∧
  1 ≤ s.params.fw_fragment_count ∧
  (∀ b ∈ s.params.fragments_bitmask, b < 256) ∧
  ((s.params.ota_state ≠ .STARTED ∧
      s.params.ota_state ≠ .MISSING_FRAGMENTS_REQUESTING) →
    ∀ f, 1 ≤ f → f ≤ s.params.fw_fragment_count →
      fragmentBitSet s.params.fragments_bitmask
        s.params.fragments_bitmask_length f = true)

/-- A FRAGMENT command that passes the per-command checks of
`ota_manage_fragment_command`: matching session id, matching CRC, and a
1-indexed fragment id within the image. -/
def ValidFragment (s : OtaLib) (cmd : FragmentCmd) : Prop :=
  cmd.session_id = s.params.ota_session_id ∧
  cmd.checksum = ota_calculate_checksum_over_one_fragment cmd.fragment_bytes ∧
  0 < cmd.fragment_id ∧ cmd.fragment_id ≤ s.params.fw_fragment_count

/-- A concrete receiving-node state used by witnesses: a 2-fragment,
1-segment session in state STARTED with an all-zero 16-byte bitmask. -/
def exampleReceivingState : OtaLib where
  params := { zeroedParameters with
    ota_session_id := List.replicate OTA_SESSION_ID_SIZE 7
    device_type := OTA_DEVICE_TYPE_NODE
    ota_state := .STARTED
    fw_total_byte_count := 6
    fw_fragment_byte_count := 4
    fw_fragment_count := 2
    fw_segment_count := 1
    fragments_bitmask_length := 16
    fragments_bitmask := List.replicate 16 0 }
  config_device_type := OTA_DEVICE_TYPE_NODE
  own_device_type := true
  fragments_request_service := false
  fw_delivering := false
  fw_deliver_current_fragment_id := 0
  fw_update_received := false
  update_fw_delay := 0
  fragments_request_service_segment_id := 0
  fragments_request_service_bitmask_tbl := List.replicate 16 0
  checksum_cursor := 0
  sha_ctx := none
  armed_timers := []
  write_log := []
  sent_info_log := []

theorem xor_lt_65536 {x y : Nat} (hx : x < 65536) (hy : y < 65536) :
    x ^^^ y < 65536 := by
  have h := Nat.xor_lt_two_pow (n := 16) (x := x) (y := y)
  norm_num at h
  exact h hx hy

theorem specCrcStep_lt (crc c : Nat) (hcrc : crc < 65536) :
    specCrcStep crc c < 65536 := by
  unfold specCrcStep
  have h4 : crc >>> 4 < 65536 := by
    rw [Nat.shiftRight_eq_div_pow]
    omega
  have hq1 : ((crc ^^^ c) &&& 0xF) * 0x1081 < 65536 := by
    have h := Nat.and_le_right (n := crc ^^^ c) (m := 0xF)
    have : ((crc ^^^ c) &&& 0xF) * 0x1081 ≤ 15 * 0x1081 :=
      Nat.mul_le_mul_right _ (by omega)
    omega
  have h1 := xor_lt_65536 h4 hq1
  have h14 : ((crc >>> 4) ^^^ (((crc ^^^ c) &&& 0xF) * 0x1081)) >>> 4 < 65536 := by
    rw [Nat.shiftRight_eq_div_pow]
    omega
  have hq2 : ((((crc >>> 4) ^^^ (((crc ^^^ c) &&& 0xF) * 0x1081)) ^^^ (c >>> 4)) &&& 0xF) * 0x1081
      < 65536 := by
    have h := Nat.and_le_right
      (n := ((crc >>> 4) ^^^ (((crc ^^^ c) &&& 0xF) * 0x1081)) ^^^ (c >>> 4)) (m := 0xF)
    have : ((((crc >>> 4) ^^^ (((crc ^^^ c) &&& 0xF) * 0x1081)) ^^^ (c >>> 4)) &&& 0xF) * 0x1081
        ≤ 15 * 0x1081 := Nat.mul_le_mul_right _ (by omega)
    omega
  exact xor_lt_65536 h14 hq2

theorem crcStep_eq_specCrcStep (crc c : Nat) (hcrc : crc < 65536) :
    crcStep crc c = specCrcStep crc c := by
  have h1 : (crc >>> 4) ^^^ (((crc ^^^ c) &&& 0x0f) * 0x1081) < 65536 := by
    have h4 : crc >>> 4 < 65536 := by
      rw [Nat.shiftRight_eq_div_pow]
      omega
    have hq1 : ((crc ^^^ c) &&& 0x0f) * 0x1081 < 65536 := by
      have h := Nat.and_le_right (n := crc ^^^ c) (m := 0x0f)
      have : ((crc ^^^ c) &&& 0x0f) * 0x1081 ≤ 15 * 0x1081 :=
        Nat.mul_le_mul_right _ (by omega)
      omega
    exact xor_lt_65536 h4 hq1
  have hs := specCrcStep_lt crc c hcrc
  unfold crcStep specCrcStep at *
  simp only [Nat.mod_eq_of_lt h1] at *
  exact Nat.mod_eq_of_lt hs

theorem crc_foldl_eq (data : List Nat) (crc : Nat) (hcrc : crc < 65536) :
    data.foldl crcStep crc = data.foldl specCrcStep crc := by
  induction data generalizing crc with
  | nil => rfl
  | cons b rest ih =>
    simp only [List.foldl_cons]
    rw [crcStep_eq_specCrcStep crc b hcrc]
    exact ih (specCrcStep crc b) (specCrcStep_lt crc b hcrc)

/-- Claim C1: for every byte sequence, the per-fragment checksum function
`ota_calculate_checksum_over_one_fragment` computes exactly the
nibble-table CRC-16 the specification defines (initial value 0, constant
0x1081, the two nibble reductions per byte). -/
theorem claim_C1_fragment_crc_is_spec_crc (data : List Nat) :
    ota_calculate_checksum_over_one_fragment data = specCrc data :=
  crc_foldl_eq data 0 (by omega)


theorem fragBitPos_lt (fid : Nat) : fragBitPos fid < 8 :=
  Nat.mod_lt _ (by omega)

theorem and_shift_bne_zero (b j : Nat) : (b &&& (1 <<< j) != 0) = b.testBit j := by
  rw [Nat.shiftLeft_eq, one_mul, Nat.and_two_pow]
  cases h : b.testBit j <;> simp [h]

theorem fragmentBitSet_testBit (mask : List Nat) (len fid : Nat) :
    fragmentBitSet mask len fid =
      (mask.getD (fragBitIdx len fid) 0).testBit (fragBitPos fid) := by
  unfold fragmentBitSet
  rw [and_shift_bne_zero]

theorem getD_set_self (l : List Nat) (i v : Nat) (h : i < l.length) :
    (l.set i v).getD i 0 = v := by
  rw [List.getD_eq_getElem _ _ (by simpa using h)]
  exact List.getElem_set_self _

theorem getD_set_ne (l : List Nat) (i j v : Nat) (h : i ≠ j) :
    (l.set i v).getD j 0 = l.getD j 0 := by
  simp [List.getD_eq_getElem?_getD, List.getElem?_set_ne h]

theorem fragBitIdx_lt (len f : Nat) (hf1 : 1 ≤ f) (hf2 : f ≤ 8 * len) :
    fragBitIdx len f < len := by
  unfold fragBitIdx
  have h : (f - 1) / 8 < len := (Nat.div_lt_iff_lt_mul (by norm_num)).mpr (by omega)
  omega

theorem fragPos_inj {len f g : Nat} (hf1 : 1 ≤ f) (hf2 : f ≤ 8 * len)
    (hg1 : 1 ≤ g) (hg2 : g ≤ 8 * len)
    (hidx : fragBitIdx len f = fragBitIdx len g)
    (hpos : fragBitPos f = fragBitPos g) : f = g := by
  unfold fragBitIdx at hidx
  unfold fragBitPos at hpos
  have ha : (f - 1) / 8 < len := (Nat.div_lt_iff_lt_mul (by norm_num)).mpr (by omega)
  have hb : (g - 1) / 8 < len := (Nat.div_lt_iff_lt_mul (by norm_num)).mpr (by omega)
  have h1 := Nat.div_add_mod (f - 1) 8
  have h2 := Nat.div_add_mod (g - 1) 8
  have hm1 : (f - 1) % 8 < 8 := Nat.mod_lt _ (by norm_num)
  have hm2 : (g - 1) % 8 < 8 := Nat.mod_lt _ (by norm_num)
  omega

theorem testBit_or_single (b j i : Nat) :
    (b ||| (1 <<< j)).testBit i = (b.testBit i || decide (j = i)) := by
  rw [Nat.testBit_or, Nat.shiftLeft_eq, one_mul, Nat.testBit_two_pow]

theorem testBit_and_clear (b j i : Nat) (hi : i < 8) :
    (b &&& (255 ^^^ (1 <<< j))).testBit i = (b.testBit i && !decide (j = i)) := by
  rw [Nat.testBit_and, Nat.testBit_xor, Nat.shiftLeft_eq, one_mul,
    Nat.testBit_two_pow]
  have h255 : (255 : Nat).testBit i = true := by
    have he : (255 : Nat) = 2 ^ 8 - 1 := by norm_num
    rw [he, Nat.testBit_two_pow_sub_one]
    simp [hi]
  rw [h255]
  cases hd : decide (j = i) <;> simp [hd]

theorem fragmentBitSet_or (m : List Nat) (len f g : Nat)
    (hmlen : m.length = len)
    (hf1 : 1 ≤ f) (hf2 : f ≤ 8 * len) (hg1 : 1 ≤ g) (hg2 : g ≤ 8 * len) :
    fragmentBitSet
        (m.set (fragBitIdx len g) (m.getD (fragBitIdx len g) 0 ||| (1 <<< fragBitPos g)))
        len f =
      (fragmentBitSet m len f || decide (f = g)) := by
  have hgidx : fragBitIdx len g < m.length := by
    rw [hmlen]; exact fragBitIdx_lt len g hg1 hg2
  by_cases hidx : fragBitIdx len f = fragBitIdx len g
  · rw [fragmentBitSet_testBit, fragmentBitSet_testBit, hidx,
      getD_set_self _ _ _ hgidx, testBit_or_single]
    congr 1
    rw [decide_eq_decide]
    constructor
    · intro hp
      exact (fragPos_inj hg1 hg2 hf1 hf2 hidx.symm hp).symm
    · intro hp
      rw [hp]
  · rw [fragmentBitSet_testBit, fragmentBitSet_testBit,
      getD_set_ne _ _ _ _ (fun he => hidx he.symm)]
    have hfg : decide (f = g) = false := by
      simp only [decide_eq_false_iff_not]
      intro he
      exact hidx (by rw [he])
    rw [hfg, Bool.or_false]

theorem fragmentBitSet_clear (m : List Nat) (len f g : Nat)
    (hmlen : m.length = len)
    (hf1 : 1 ≤ f) (hf2 : f ≤ 8 * len) (hg1 : 1 ≤ g) (hg2 : g ≤ 8 * len) :
    fragmentBitSet
        (m.set (fragBitIdx len g)
          (m.getD (fragBitIdx len g) 0 &&& (255 ^^^ (1 <<< fragBitPos g))))
        len f =
      (fragmentBitSet m len f && !decide (f = g)) := by
  have hgidx : fragBitIdx len g < m.length := by
    rw [hmlen]; exact fragBitIdx_lt len g hg1 hg2
  by_cases hidx : fragBitIdx len f = fragBitIdx len g
  · rw [fragmentBitSet_testBit, fragmentBitSet_testBit, hidx,
      getD_set_self _ _ _ hgidx, testBit_and_clear _ _ _ (fragBitPos_lt f)]
    congr 2
    rw [decide_eq_decide]
    constructor
    · intro hp
      exact (fragPos_inj hg1 hg2 hf1 hf2 hidx.symm hp).symm
    · intro hp
      rw [hp]
  · rw [fragmentBitSet_testBit, fragmentBitSet_testBit,
      getD_set_ne _ _ _ _ (fun he => hidx he.symm)]
    have hfg : decide (f = g) = false := by
      simp only [decide_eq_false_iff_not]
      intro he
      exact hidx (by rw [he])
    rw [hfg]
    simp

theorem initLoop_length (len v : Nat) (mask : List Nat) (n : Nat) :
    (initLoop len v mask n).length = mask.length := by
  induction n with
  | zero => rfl
  | succ n ih => simp [initLoop, List.length_set, ih]

theorem fragBitIdx_succ (len n : Nat) : fragBitIdx len (n + 1) = len - 1 - n / 8 := by
  simp [fragBitIdx]

theorem fragBitPos_succ (n : Nat) : fragBitPos (n + 1) = n % 8 := by
  simp [fragBitPos]

theorem initLoop_bit (len v n : Nat) (hn : n ≤ 8 * len) (f : Nat)
    (hf1 : 1 ≤ f) (hf2 : f ≤ 8 * len) :
    fragmentBitSet (initLoop len v (List.replicate len 255) n) len f =
      if f ≤ n then decide (v ≠ 0) else true := by
  induction n with
  | zero =>
    have hidx : fragBitIdx len f < len := fragBitIdx_lt len f hf1 hf2
    rw [if_neg (by omega)]
    simp only [initLoop]
    rw [fragmentBitSet_testBit]
    have hrep : (List.replicate len (255 : Nat)).getD (fragBitIdx len f) 0 = 255 := by
      simp [List.getD_eq_getElem?_getD, List.getElem?_replicate, hidx]
    rw [hrep]
    have he : (255 : Nat) = 2 ^ 8 - 1 := by norm_num
    rw [he, Nat.testBit_two_pow_sub_one]
    simp [fragBitPos_lt f]
  | succ n ih =>
    have hmlen : (initLoop len v (List.replicate len 255) n).length = len := by
      rw [initLoop_length, List.length_replicate]
    have hg1 : 1 ≤ n + 1 := by omega
    have hg2 : n + 1 ≤ 8 * len := hn
    simp only [initLoop, ← fragBitIdx_succ, ← fragBitPos_succ]
    by_cases hv : v = 0
    · rw [if_pos hv]
      rw [fragmentBitSet_clear _ _ _ _ hmlen hf1 hf2 hg1 hg2]
      rw [ih (by omega)]
      by_cases hfn : f = n + 1
      · simp [hfn, hv]
      · have hd : decide (f = n + 1) = false := by
          simp [hfn]
        rw [hd]
        by_cases hle : f ≤ n
        · rw [if_pos hle, if_pos (by omega)]
          simp [hv]
        · rw [if_neg hle, if_neg (by omega)]
          rfl
    · rw [if_neg hv]
      rw [fragmentBitSet_or _ _ _ _ hmlen hf1 hf2 hg1 hg2]
      rw [ih (by omega)]
      by_cases hfn : f = n + 1
      · simp [hfn, hv]
      · have hd : decide (f = n + 1) = false := by
          simp [hfn]
        rw [hd]
        by_cases hle : f ≤ n
        · rw [if_pos hle, if_pos (by omega)]
          simp
        · rw [if_neg hle, if_neg (by omega)]
          simp

theorem countP_range8_lt (t : Nat) :
    (List.range 8).countP (fun j => decide (j < t)) = min 8 t := by
  simp [List.range_succ, List.countP_append, List.countP_cons]
  split_ifs <;> omega

theorem countZero_byte_eq (mask : List Nat) (len k : Nat) :
    countZeroBitsInByte (mask.getD (len - 1 - k) 0) =
      (List.range 8).countP (fun j => !fragmentBitSet mask len (8 * k + j + 1)) := by
  unfold countZeroBitsInByte
  apply List.countP_congr
  intro j hj
  have hj8 : j < 8 := List.mem_range.mp hj
  have hidx : fragBitIdx len (8 * k + j + 1) = len - 1 - k := by
    unfold fragBitIdx
    have : (8 * k + j) / 8 = k := by omega
    simp [this]
  have hpos : fragBitPos (8 * k + j + 1) = j := by
    unfold fragBitPos
    simp
    omega
  rw [fragmentBitSet_testBit, hidx, hpos, ← and_shift_bne_zero]
  cases hz : (mask.getD (len - 1 - k) 0 &&& (1 <<< j) != 0) <;> simp_all

theorem missingLoop_init (len v count : Nat) (hcount : count ≤ 8 * len) :
    ∀ d k, count - 8 * k ≤ d →
      missingLoop (initLoop len v (List.replicate len 255) count) len count
          (8 * k + 1) k =
        if v = 0 then count - 8 * k else 0 := by
  intro d
  induction d with
  | zero =>
    intro k hk
    rw [missingLoop, if_neg (by omega)]
    split <;> omega
  | succ d ih =>
    intro k hk
    by_cases hfid : 8 * k + 1 ≤ count
    · rw [missingLoop, if_pos hfid]
      have hrec := ih (k + 1) (by omega)
      have hcast : 8 * (k + 1) + 1 = 8 * k + 1 + 8 := by omega
      rw [hcast] at hrec
      rw [hrec, countZero_byte_eq]
      have hbytes : (List.range 8).countP
          (fun j => !fragmentBitSet (initLoop len v (List.replicate len 255) count)
            len (8 * k + j + 1)) =
          (List.range 8).countP (fun j => decide (v = 0 ∧ j < count - 8 * k)) := by
        apply List.countP_congr
        intro j hj
        have hj8 : j < 8 := List.mem_range.mp hj
        rw [initLoop_bit len v count hcount (8 * k + j + 1) (by omega) (by omega)]
        by_cases hv : v = 0
        · by_cases hle : 8 * k + j + 1 ≤ count
          · have hj2 : j < count - 8 * k := by omega
            rw [if_pos hle]
            simp [hv, hj2]
          · have hj2 : ¬j < count - 8 * k := by omega
            rw [if_neg hle]
            simp [hv, hj2]
        · by_cases hle : 8 * k + j + 1 ≤ count
          · rw [if_pos hle]
            simp [hv]
          · rw [if_neg hle]
            simp [hv]
      rw [hbytes]
      by_cases hv : v = 0
      · have hpred : (List.range 8).countP (fun j => decide (v = 0 ∧ j < count - 8 * k)) =
            (List.range 8).countP (fun j => decide (j < count - 8 * k)) := by
          apply List.countP_congr
          intro j hj
          simp [hv]
        rw [hpred, countP_range8_lt]
        rw [if_pos hv, if_pos hv]
        omega
      · have hpred : (List.range 8).countP (fun j => decide (v = 0 ∧ j < count - 8 * k)) = 0 := by
          rw [List.countP_eq_zero]
          intro j hj
          simp [hv]
        rw [hpred, if_neg hv, if_neg hv]
    · rw [missingLoop, if_neg (by omega)]
      split <;> omega

theorem missing_init_eq (len v count : Nat) (hcount : count ≤ 8 * len) :
    missingLoop (initLoop len v (List.replicate len 255) count) len count 1 0 =
      if v = 0 then count else 0 := by
  have h := missingLoop_init len v count hcount count 0 (by omega)
  simpa using h

/-- Claim C5: after `ota_init_fragments_bit_mask` on a session whose
`fw_segment_count` is the remainder-corrected `fw_fragment_count /
OTA_SEGMENT_SIZE` and whose bitmask length field is `fw_segment_count x 16`,
the bitmask is `fw_segment_count x 16` bytes long, every bit for a fragment
position past `fw_fragment_count` is 1, the bits of positions
`1..fw_fragment_count` carry the init value, and
`ota_get_missing_fragment_total_count` counts zero bits of positions
`1..fw_fragment_count` only: it returns exactly `fw_fragment_count` for
init value 0 and 0 otherwise. -/
theorem claim_C5_bitmask_init (p : OtaParameters) (init_value : Nat)
    (hcount : 1 ≤ p.fw_fragment_count)
    (hseg : p.fw_segment_count =
      (p.fw_fragment_count + OTA_SEGMENT_SIZE - 1) / OTA_SEGMENT_SIZE)
    (hlen : p.fragments_bitmask_length =
      p.fw_segment_count * OTA_FRAGMENTS_REQ_BITMASK_LENGTH) :
    (ota_init_fragments_bit_mask p init_value).fragments_bitmask.length =
        p.fw_segment_count * OTA_FRAGMENTS_REQ_BITMASK_LENGTH ∧
      (∀ f, p.fw_fragment_count < f → f ≤ 8 * p.fragments_bitmask_length →
        fragmentBitSet (ota_init_fragments_bit_mask p init_value).fragments_bitmask
          p.fragments_bitmask_length f = true) ∧
      (∀ f, 1 ≤ f → f ≤ p.fw_fragment_count →
        fragmentBitSet (ota_init_fragments_bit_mask p init_value).fragments_bitmask
          p.fragments_bitmask_length f = decide (init_value ≠ 0)) ∧
      ota_get_missing_fragment_total_count (ota_init_fragments_bit_mask p init_value) =
        if init_value = 0 then p.fw_fragment_count else 0 := by
  have hc8 : p.fw_fragment_count ≤ 8 * p.fragments_bitmask_length := by
    rw [hlen, hseg]
    unfold OTA_SEGMENT_SIZE OTA_FRAGMENTS_REQ_BITMASK_LENGTH
    omega
  refine ⟨?_, ?_, ?_, ?_⟩
  · unfold ota_init_fragments_bit_mask
    simp [initLoop_length, hlen]
  · intro f hf1 hf2
    unfold ota_init_fragments_bit_mask
    simp only
    rw [initLoop_bit _ _ _ hc8 f (by omega) hf2]
    rw [if_neg (by omega)]
  · intro f hf1 hf2
    unfold ota_init_fragments_bit_mask
    simp only
    rw [initLoop_bit _ _ _ hc8 f hf1 (by omega)]
    rw [if_pos hf2]
  · unfold ota_get_missing_fragment_total_count ota_init_fragments_bit_mask
    simp only
    exact missing_init_eq _ _ _ hc8

/-- Witness for C5 at a concrete session: 3 fragments, 1 segment, a
16-byte bitmask, init value 0. -/
theorem claim_C5_bitmask_init_witness :
    (1 ≤ (3 : Nat)) ∧
      ((1 : Nat) = (3 + OTA_SEGMENT_SIZE - 1) / OTA_SEGMENT_SIZE) ∧
      ((16 : Nat) = 1 * OTA_FRAGMENTS_REQ_BITMASK_LENGTH) ∧
      ((ota_init_fragments_bit_mask
          { zeroedParameters with
              fw_fragment_count := 3, fw_segment_count := 1,
              fragments_bitmask_length := 16 } 0).fragments_bitmask.length =
            1 * OTA_FRAGMENTS_REQ_BITMASK_LENGTH ∧
        (∀ f, 3 < f → f ≤ 8 * 16 →
          fragmentBitSet (ota_init_fragments_bit_mask
            { zeroedParameters with
                fw_fragment_count := 3, fw_segment_count := 1,
                fragments_bitmask_length := 16 } 0).fragments_bitmask 16 f = true) ∧
        (∀ f, 1 ≤ f → f ≤ 3 →
          fragmentBitSet (ota_init_fragments_bit_mask
            { zeroedParameters with
                fw_fragment_count := 3, fw_segment_count := 1,
                fragments_bitmask_length := 16 } 0).fragments_bitmask 16 f =
            decide ((0 : Nat) ≠ 0)) ∧
        ota_get_missing_fragment_total_count (ota_init_fragments_bit_mask
          { zeroedParameters with
              fw_fragment_count := 3, fw_segment_count := 1,
              fragments_bitmask_length := 16 } 0) = if (0 : Nat) = 0 then 3 else 0) :=
  ⟨by decide, by decide, by decide,
    claim_C5_bitmask_init
      { zeroedParameters with
          fw_fragment_count := 3, fw_segment_count := 1,
          fragments_bitmask_length := 16 } 0
      (by decide) (by decide) (by decide)⟩

theorem requester_preserves (s : OtaLib) (b : Bool) :
    (ota_get_next_missing_fragment_id_for_requester s b).2.params = s.params ∧
      (ota_get_next_missing_fragment_id_for_requester s b).2.write_log = s.write_log ∧
      (ota_get_next_missing_fragment_id_for_requester s b).2.fragments_request_service =
        s.fragments_request_service := by
  unfold ota_get_next_missing_fragment_id_for_requester
  dsimp only
  split_ifs <;> exact ⟨rfl, rfl, rfl⟩

theorem checksum_preserves (s : OtaLib) (st : Nat → Nat)
    (sh : List Nat → List Nat) (r : Nat) :
    (ota_manage_whole_fw_checksum_calculating s st sh r).params.fragments_bitmask =
        s.params.fragments_bitmask ∧
      (ota_manage_whole_fw_checksum_calculating s st sh r).params.fragments_bitmask_length =
        s.params.fragments_bitmask_length ∧
      (ota_manage_whole_fw_checksum_calculating s st sh r).params.fw_fragment_count =
        s.params.fw_fragment_count ∧
      (ota_manage_whole_fw_checksum_calculating s st sh r).params.ota_session_id =
        s.params.ota_session_id ∧
      (ota_manage_whole_fw_checksum_calculating s st sh r).params.fw_fragment_byte_count =
        s.params.fw_fragment_byte_count ∧
      (ota_manage_whole_fw_checksum_calculating s st sh r).params.fw_total_byte_count =
        s.params.fw_total_byte_count ∧
      (ota_manage_whole_fw_checksum_calculating s st sh r).write_log = s.write_log ∧
      (ota_manage_whole_fw_checksum_calculating s st sh r).fragments_request_service =
        s.fragments_request_service := by
  unfold ota_manage_whole_fw_checksum_calculating
  by_cases h : s.params.ota_state = .CHECKSUM_CALCULATING
  · rw [if_pos h]
    cases hc : s.sha_ctx with
    | none => exact ⟨rfl, rfl, rfl, rfl, rfl, rfl, rfl, rfl⟩
    | some fed =>
      dsimp only
      split_ifs <;> exact ⟨rfl, rfl, rfl, rfl, rfl, rfl, rfl, rfl⟩
  · rw [if_neg h]
    exact ⟨rfl, rfl, rfl, rfl, rfl, rfl, rfl, rfl⟩

theorem checksum_state_classify (s : OtaLib) (st : Nat → Nat)
    (sh : List Nat → List Nat) (r : Nat)
    (h : s.params.ota_state = .CHECKSUM_CALCULATING) :
    (ota_manage_whole_fw_checksum_calculating s st sh r).params.ota_state =
        .CHECKSUM_CALCULATING ∨
      (ota_manage_whole_fw_checksum_calculating s st sh r).params.ota_state =
        .PROCESS_COMPLETED ∨
      (ota_manage_whole_fw_checksum_calculating s st sh r).params.ota_state =
        .CHECKSUM_FAILED := by
  unfold ota_manage_whole_fw_checksum_calculating
  rw [if_pos h]
  cases hc : s.sha_ctx with
  | none => exact Or.inl h
  | some fed =>
    dsimp only
    split_ifs <;> simp [h]

theorem missingLoop_zero_bits (mask : List Nat) (len count : Nat) :
    ∀ d k, count - 8 * k ≤ d →
      missingLoop mask len count (8 * k + 1) k = 0 →
      ∀ f, 8 * k + 1 ≤ f → f ≤ count → fragmentBitSet mask len f = true := by
  intro d
  induction d with
  | zero =>
    intro k hk h0 f hf1 hf2
    omega
  | succ d ih =>
    intro k hk h0 f hf1 hf2
    rw [missingLoop, if_pos (by omega)] at h0
    have hbz : countZeroBitsInByte (mask.getD (len - 1 - k) 0) = 0 := by omega
    have hrec : missingLoop mask len count (8 * k + 1 + 8) (k + 1) = 0 := by omega
    by_cases hfk : f ≤ 8 * k + 8
    · have hj : f - 1 - 8 * k < 8 := by omega
      rw [fragmentBitSet_testBit]
      have hidx : fragBitIdx len f = len - 1 - k := by
        unfold fragBitIdx
        have hq : (f - 1) / 8 = k := by omega
        rw [hq]
      have hpos : fragBitPos f = f - 1 - 8 * k := by
        unfold fragBitPos
        omega
      rw [hidx, hpos]
      unfold countZeroBitsInByte at hbz
      rw [List.countP_eq_zero] at hbz
      have hb := hbz (f - 1 - 8 * k) (List.mem_range.mpr hj)
      rw [← and_shift_bne_zero]
      simpa using hb
    · have hc8 : 8 * (k + 1) + 1 = 8 * k + 1 + 8 := by omega
      exact ih (k + 1) (by omega) (by rw [hc8]; exact hrec) f (by omega) hf2

theorem missing_zero_all_bits (mask : List Nat) (len count : Nat)
    (h0 : missingLoop mask len count 1 0 = 0) :
    ∀ f, 1 ≤ f → f ≤ count → fragmentBitSet mask len f = true := by
  intro f hf1 hf2
  have h := missingLoop_zero_bits mask len count count 0 (by omega)
  simp only [Nat.mul_zero, Nat.zero_add] at h
  exact h h0 f (by omega) hf2


theorem checksum_preserves_mask (s : OtaLib) (st : Nat → Nat)
    (sh : List Nat → List Nat) (r : Nat) :
    (ota_manage_whole_fw_checksum_calculating s st sh r).params.fragments_bitmask =
      s.params.fragments_bitmask := (checksum_preserves s st sh r).1

theorem checksum_preserves_len (s : OtaLib) (st : Nat → Nat)
    (sh : List Nat → List Nat) (r : Nat) :
    (ota_manage_whole_fw_checksum_calculating s st sh r).params.fragments_bitmask_length =
      s.params.fragments_bitmask_length := (checksum_preserves s st sh r).2.1

theorem checksum_preserves_count (s : OtaLib) (st : Nat → Nat)
    (sh : List Nat → List Nat) (r : Nat) :
    (ota_manage_whole_fw_checksum_calculating s st sh r).params.fw_fragment_count =
      s.params.fw_fragment_count := (checksum_preserves s st sh r).2.2.1

theorem checksum_preserves_sid (s : OtaLib) (st : Nat → Nat)
    (sh : List Nat → List Nat) (r : Nat) :
    (ota_manage_whole_fw_checksum_calculating s st sh r).params.ota_session_id =
      s.params.ota_session_id := (checksum_preserves s st sh r).2.2.2.1

theorem checksum_preserves_write_log (s : OtaLib) (st : Nat → Nat)
    (sh : List Nat → List Nat) (r : Nat) :
    (ota_manage_whole_fw_checksum_calculating s st sh r).write_log =
      s.write_log := (checksum_preserves s st sh r).2.2.2.2.2.2.1

theorem checksum_preserves_service (s : OtaLib) (st : Nat → Nat)
    (sh : List Nat → List Nat) (r : Nat) :
    (ota_manage_whole_fw_checksum_calculating s st sh r).fragments_request_service =
      s.fragments_request_service := (checksum_preserves s st sh r).2.2.2.2.2.2.2

theorem missing_count_cs (X : OtaLib) (st : Nat → Nat)
    (sh : List Nat → List Nat) (r : Nat) :
    ota_get_missing_fragment_total_count
        (ota_manage_whole_fw_checksum_calculating X st sh r).params =
      ota_get_missing_fragment_total_count X.params := by
  unfold ota_get_missing_fragment_total_count
  rw [(checksum_preserves X st sh r).1, (checksum_preserves X st sh r).2.1,
    (checksum_preserves X st sh r).2.2.1]

theorem fragment_step_write (s : OtaLib) (cmd : FragmentCmd)
    (st : Nat → Nat) (sh : List Nat → List Nat) (r : Nat)
    (hcond : FragWriteCond s cmd) :
    (ota_manage_fragment_command s cmd st sh r).params.fragments_bitmask =
        setFragmentBit s.params.fragments_bitmask
          s.params.fragments_bitmask_length cmd.fragment_id ∧
      (ota_manage_fragment_command s cmd st sh r).write_log =
        s.write_log ++ [(fragWriteOffset s cmd, fragWriteLen s cmd)] ∧
      (ota_manage_fragment_command s cmd st sh r).params.ota_session_id =
        s.params.ota_session_id ∧
      (ota_manage_fragment_command s cmd st sh r).params.fw_fragment_count =
        s.params.fw_fragment_count ∧
      (ota_manage_fragment_command s cmd st sh r).params.fragments_bitmask_length =
        s.params.fragments_bitmask_length ∧
      (ota_manage_fragment_command s cmd st sh r).fragments_request_service = false ∧
      ((ota_manage_fragment_command s cmd st sh r).params.ota_state =
          s.params.ota_state ∨
        (ota_get_missing_fragment_total_count
            (ota_manage_fragment_command s cmd st sh r).params = 0 ∧
          (ota_manage_fragment_command s cmd st sh r).params.ota_state ≠ .STARTED ∧
          (ota_manage_fragment_command s cmd st sh r).params.ota_state ≠
            .MISSING_FRAGMENTS_REQUESTING)) := by
  obtain ⟨hsid, hgate, hcrc, hf0, hfle, hsvc, halr⟩ := hcond
  have hB : ¬(s.params.ota_state ≠ .STARTED ∧
      s.params.ota_state ≠ .MISSING_FRAGMENTS_REQUESTING ∧
      s.fragments_request_service = false) := by
    rcases hgate with h | h | h
    · exact fun hx => hx.1 h
    · exact fun hx => hx.2.1 h
    · rw [hsvc] at h
      exact absurd h (by simp)
  unfold ota_manage_fragment_command
  rw [if_neg (not_not_intro hsid), if_neg hB]
  dsimp only
  have hC : cmd.checksum = ota_calculate_checksum_over_one_fragment cmd.fragment_bytes ∧
      0 < cmd.fragment_id ∧ cmd.fragment_id ≤ s.params.fw_fragment_count :=
    ⟨hcrc, hf0, hfle⟩
  rw [if_pos hC, if_pos hsvc, if_pos halr]
  unfold fragWriteLen
  unfold fragWriteOffset
  by_cases hm : ota_get_missing_fragment_total_count
      { s.params with fragments_bitmask :=
          (setFragmentBit s.params.fragments_bitmask
            s.params.fragments_bitmask_length cmd.fragment_id) } = 0
  · rw [if_pos hm]
    have hcl := checksum_state_classify
      { s with
          params := { s.params with
            ota_state := .CHECKSUM_CALCULATING
            fragments_bitmask :=
              (setFragmentBit s.params.fragments_bitmask
                s.params.fragments_bitmask_length cmd.fragment_id) }
          write_log := s.write_log ++
            [((cmd.fragment_id - 1) * s.params.fw_fragment_byte_count,
              if (cmd.fragment_id - 1) * s.params.fw_fragment_byte_count +
                  s.params.fw_fragment_byte_count > s.params.fw_total_byte_count
              then s.params.fw_total_byte_count -
                (cmd.fragment_id - 1) * s.params.fw_fragment_byte_count
              else s.params.fw_fragment_byte_count)] }
      st sh r rfl
    have htail : ¬((ota_manage_whole_fw_checksum_calculating
        { s with
            params := { s.params with
              ota_state := .CHECKSUM_CALCULATING
              fragments_bitmask :=
                (setFragmentBit s.params.fragments_bitmask
                  s.params.fragments_bitmask_length cmd.fragment_id) }
            write_log := s.write_log ++
              [((cmd.fragment_id - 1) * s.params.fw_fragment_byte_count,
                if (cmd.fragment_id - 1) * s.params.fw_fragment_byte_count +
                    s.params.fw_fragment_byte_count > s.params.fw_total_byte_count
                then s.params.fw_total_byte_count -
                  (cmd.fragment_id - 1) * s.params.fw_fragment_byte_count
                else s.params.fw_fragment_byte_count)] }
        st sh r).params.ota_state = .MISSING_FRAGMENTS_REQUESTING ∧
          0 < ota_get_missing_fragment_total_count
            (ota_manage_whole_fw_checksum_calculating
              { s with
                  params := { s.params with
                    ota_state := .CHECKSUM_CALCULATING
                    fragments_bitmask :=
                      (setFragmentBit s.params.fragments_bitmask
                        s.params.fragments_bitmask_length cmd.fragment_id) }
                  write_log := s.write_log ++
                    [((cmd.fragment_id - 1) * s.params.fw_fragment_byte_count,
                      if (cmd.fragment_id - 1) * s.params.fw_fragment_byte_count +
                          s.params.fw_fragment_byte_count > s.params.fw_total_byte_count
                      then s.params.fw_total_byte_count -
                        (cmd.fragment_id - 1) * s.params.fw_fragment_byte_count
                      else s.params.fw_fragment_byte_count)] }
              st sh r).params) := by
      rcases hcl with hx | hx | hx <;> simp [hx]
    rw [if_neg htail]
    refine ⟨by rw [checksum_preserves_mask], by rw [checksum_preserves_write_log],
      by rw [checksum_preserves_sid], by rw [checksum_preserves_count],
      by rw [checksum_preserves_len],
      by rw [checksum_preserves_service]; exact hsvc,
      Or.inr ⟨?_, ?_, ?_⟩⟩
    · rw [missing_count_cs]
      exact hm
    · rcases hcl with hx | hx | hx <;> simp [hx]
    · rcases hcl with hx | hx | hx <;> simp [hx]
  · rw [if_neg hm]
    split_ifs <;> exact ⟨rfl, rfl, rfl, rfl, rfl, hsvc, Or.inl rfl⟩

theorem fragment_step_nowrite (s : OtaLib) (cmd : FragmentCmd)
    (st : Nat → Nat) (sh : List Nat → List Nat) (r : Nat)
    (hsvc : s.fragments_request_service = false)
    (hnc : ¬FragWriteCond s cmd) :
    (ota_manage_fragment_command s cmd st sh r).params = s.params ∧
      (ota_manage_fragment_command s cmd st sh r).write_log = s.write_log ∧
      (ota_manage_fragment_command s cmd st sh r).fragments_request_service = false := by
  unfold ota_manage_fragment_command
  by_cases hsid : cmd.session_id = s.params.ota_session_id
  · rw [if_neg (not_not_intro hsid)]
    by_cases hgate : s.params.ota_state ≠ .STARTED ∧
        s.params.ota_state ≠ .MISSING_FRAGMENTS_REQUESTING ∧
        s.fragments_request_service = false
    · rw [if_pos hgate]
      exact ⟨rfl, rfl, hsvc⟩
    · rw [if_neg hgate]
      dsimp only
      by_cases hC : cmd.checksum = ota_calculate_checksum_over_one_fragment cmd.fragment_bytes ∧
          0 < cmd.fragment_id ∧ cmd.fragment_id ≤ s.params.fw_fragment_count
      · rw [if_pos hC, if_pos hsvc]
        have hrecv : s.params.ota_state = .STARTED ∨
            s.params.ota_state = .MISSING_FRAGMENTS_REQUESTING := by
          by_contra hno
          push_neg at hno
          exact hgate ⟨hno.1, hno.2, hsvc⟩
        have halr : ¬ota_check_if_fragment_already_received s.params cmd.fragment_id = false := by
          intro h
          exact hnc ⟨hsid, by rcases hrecv with h1 | h1; exact Or.inl h1; exact Or.inr (Or.inl h1),
            hC.1, hC.2.1, hC.2.2, hsvc, h⟩
        rw [if_neg halr]
        split_ifs <;> exact ⟨rfl, rfl, hsvc⟩
      · rw [if_neg hC]
        split_ifs <;> exact ⟨rfl, rfl, hsvc⟩
  · rw [if_pos (by exact hsid)]
    exact ⟨rfl, rfl, hsvc⟩

theorem getD_lt_256 (mask : List Nat) (i : Nat)
    (hbytes : ∀ b ∈ mask, b < 256) : mask.getD i 0 < 256 := by
  by_cases hi : i < mask.length
  · rw [List.getD_eq_getElem _ _ hi]
    exact hbytes _ (List.getElem_mem hi)
  · rw [List.getD_eq_getElem?_getD, List.getElem?_eq_none (by omega)]
    simp

theorem fragment_step_master (s : OtaLib) (cmd : FragmentCmd)
    (st : Nat → Nat) (sh : List Nat → List Nat) (r : Nat)
    (hInv : ReceivingInvariant s) (hval : ValidFragment s cmd) :
    ReceivingInvariant (ota_manage_fragment_command s cmd st sh r) ∧
      (ota_manage_fragment_command s cmd st sh r).params.ota_session_id =
        s.params.ota_session_id ∧
      (ota_manage_fragment_command s cmd st sh r).params.fw_fragment_count =
        s.params.fw_fragment_count ∧
      (ota_manage_fragment_command s cmd st sh r).params.fragments_bitmask_length =
        s.params.fragments_bitmask_length ∧
      ∀ f, 1 ≤ f → f ≤ 8 * s.params.fragments_bitmask_length →
        fragmentBitSet (ota_manage_fragment_command s cmd st sh r).params.fragments_bitmask
            s.params.fragments_bitmask_length f =
          (fragmentBitSet s.params.fragments_bitmask
              s.params.fragments_bitmask_length f ||
            decide (f = cmd.fragment_id)) := by
  obtain ⟨hsvc, hlen, hcnt, hone, hbytes, hflip⟩ := hInv
  obtain ⟨hsid, hcrc, hf0, hfle⟩ := hval
  have hfid1 : 1 ≤ cmd.fragment_id := hf0
  have hfid8 : cmd.fragment_id ≤ 8 * s.params.fragments_bitmask_length :=
    le_trans hfle hcnt
  by_cases hcond : FragWriteCond s cmd
  · obtain ⟨hw1, hw2, hw3, hw4, hw5, hw6, hw7⟩ :=
      fragment_step_write s cmd st sh r hcond
    have hchar : ∀ f, 1 ≤ f → f ≤ 8 * s.params.fragments_bitmask_length →
        fragmentBitSet (ota_manage_fragment_command s cmd st sh r).params.fragments_bitmask
            s.params.fragments_bitmask_length f =
          (fragmentBitSet s.params.fragments_bitmask
              s.params.fragments_bitmask_length f ||
            decide (f = cmd.fragment_id)) := by
      intro f hf1 hf2
      rw [hw1]
      unfold setFragmentBit
      exact fragmentBitSet_or _ _ f cmd.fragment_id hlen hf1 hf2 hfid1 hfid8
    refine ⟨⟨hw6, ?_, ?_, ?_, ?_, ?_⟩, hw3, hw4, hw5, hchar⟩
    · rw [hw1, hw5]
      unfold setFragmentBit
      rw [List.length_set]
      exact hlen
    · rw [hw4, hw5]
      exact hcnt
    · rw [hw4]
      exact hone
    · rw [hw1]
      intro b hb
      unfold setFragmentBit at hb
      rcases List.mem_or_eq_of_mem_set hb with hmem | heq
      · exact hbytes b hmem
      · subst heq
        have h1 : s.params.fragments_bitmask.getD
            (fragBitIdx s.params.fragments_bitmask_length cmd.fragment_id) 0 < 256 :=
          getD_lt_256 _ _ hbytes
        have h2 : (1 <<< fragBitPos cmd.fragment_id) < 256 := by
          rw [Nat.shiftLeft_eq, one_mul]
          have := fragBitPos_lt cmd.fragment_id
          calc 2 ^ fragBitPos cmd.fragment_id ≤ 2 ^ 7 :=
              Nat.pow_le_pow_right (by norm_num) (by omega)
            _ < 256 := by norm_num
        have := Nat.or_lt_two_pow (n := 8) (by simpa using h1) (by simpa using h2)
        simpa using this
    · intro hnotrecv f hf1 hf2
      rcases hw7 with hstate | ⟨hmz, hne1, hne2⟩
      · rw [hstate] at hnotrecv
        rw [hw4] at hf2
        have hold := hflip hnotrecv f hf1 hf2
        rw [hw5, hchar f hf1 (by omega), hold]
        simp
      · exact missing_zero_all_bits _ _ _ hmz f hf1 hf2
  · obtain ⟨hp, hwl, hsv⟩ := fragment_step_nowrite s cmd st sh r hsvc hcond
    have hbitfid : fragmentBitSet s.params.fragments_bitmask
        s.params.fragments_bitmask_length cmd.fragment_id = true := by
      by_cases hrecv : s.params.ota_state = .STARTED ∨
          s.params.ota_state = .MISSING_FRAGMENTS_REQUESTING
      · have halr : ¬ota_check_if_fragment_already_received s.params
            cmd.fragment_id = false := by
          intro h
          refine hcond ⟨hsid, ?_, hcrc, hf0, hfle, hsvc, h⟩
          rcases hrecv with h1 | h1
          · exact Or.inl h1
          · exact Or.inr (Or.inl h1)
        cases hx : ota_check_if_fragment_already_received s.params cmd.fragment_id with
        | false => exact absurd hx halr
        | true => exact hx
      · push_neg at hrecv
        exact hflip ⟨hrecv.1, hrecv.2⟩ cmd.fragment_id hf0 hfle
    refine ⟨⟨hsv, ?_, ?_, ?_, ?_, ?_⟩, by rw [hp], by rw [hp], by rw [hp], ?_⟩
    · rw [hp]
      exact hlen
    · rw [hp]
      exact hcnt
    · rw [hp]
      exact hone
    · rw [hp]
      exact hbytes
    · rw [hp]
      exact hflip
    · intro f hf1 hf2
      rw [hp]
      by_cases hffid : f = cmd.fragment_id
      · rw [hffid]
        simp [hbitfid]
      · simp [hffid]

theorem applyFragments_master (st : Nat → Nat) (sh : List Nat → List Nat) :
    ∀ (l : List FragmentCmd) (s : OtaLib),
      ReceivingInvariant s → (∀ c ∈ l, ValidFragment s c) →
      ReceivingInvariant (applyFragments s l st sh) ∧
        (applyFragments s l st sh).params.ota_session_id = s.params.ota_session_id ∧
        (applyFragments s l st sh).params.fw_fragment_count =
          s.params.fw_fragment_count ∧
        (applyFragments s l st sh).params.fragments_bitmask_length =
          s.params.fragments_bitmask_length ∧
        ∀ f, 1 ≤ f → f ≤ 8 * s.params.fragments_bitmask_length →
          fragmentBitSet (applyFragments s l st sh).params.fragments_bitmask
              s.params.fragments_bitmask_length f =
            (fragmentBitSet s.params.fragments_bitmask
                s.params.fragments_bitmask_length f ||
              decide (f ∈ l.map FragmentCmd.fragment_id)) := by
  intro l
  induction l with
  | nil =>
    intro s hInv hvl
    refine ⟨hInv, rfl, rfl, rfl, ?_⟩
    intro f hf1 hf2
    simp [applyFragments]
  | cons c l ih =>
    intro s hInv hvl
    have hvc : ValidFragment s c := hvl c (by simp)
    obtain ⟨hInv1, hsid1, hcnt1, hlen1, hchar1⟩ :=
      fragment_step_master s c st sh 0 hInv hvc
    have hvl1 : ∀ c2 ∈ l, ValidFragment (ota_manage_fragment_command s c st sh 0) c2 := by
      intro c2 hc2
      obtain ⟨a, b, d, e⟩ := hvl c2 (by simp [hc2])
      exact ⟨by rw [hsid1]; exact a, b, d, by rw [hcnt1]; exact e⟩
    obtain ⟨hInv2, hsid2, hcnt2, hlen2, hchar2⟩ :=
      ih (ota_manage_fragment_command s c st sh 0) hInv1 hvl1
    have happ : applyFragments s (c :: l) st sh =
        applyFragments (ota_manage_fragment_command s c st sh 0) l st sh := rfl
    rw [happ]
    refine ⟨hInv2, by rw [hsid2, hsid1], by rw [hcnt2, hcnt1],
      by rw [hlen2, hlen1], ?_⟩
    intro f hf1 hf2
    rw [← hlen1] at hf2
    have h2 := hchar2 f hf1 hf2
    rw [hlen1] at h2
    rw [h2, hchar1 f hf1 (by rw [← hlen1]; exact hf2)]
    have hmem : decide (f ∈ (c :: l).map FragmentCmd.fragment_id) =
        (decide (f = c.fragment_id) ||
          decide (f ∈ l.map FragmentCmd.fragment_id)) := by
      simp [List.mem_cons]
    rw [hmem, Bool.or_assoc]

theorem fragment_step_idem (s : OtaLib) (cmd : FragmentCmd)
    (st : Nat → Nat) (sh : List Nat → List Nat) (r1 r2 : Nat)
    (hInv : ReceivingInvariant s) (hval : ValidFragment s cmd) :
    (ota_manage_fragment_command (ota_manage_fragment_command s cmd st sh r1)
        cmd st sh r2).params.fragments_bitmask =
        (ota_manage_fragment_command s cmd st sh r1).params.fragments_bitmask ∧
      (ota_manage_fragment_command (ota_manage_fragment_command s cmd st sh r1)
          cmd st sh r2).write_log =
        (ota_manage_fragment_command s cmd st sh r1).write_log := by
  obtain ⟨hsvc, hlen, hcnt, hone, hbytes, hflip⟩ := hInv
  obtain ⟨hsid, hcrc, hf0, hfle⟩ := hval
  have hfid8 : cmd.fragment_id ≤ 8 * s.params.fragments_bitmask_length :=
    le_trans hfle hcnt
  by_cases hcond : FragWriteCond s cmd
  · obtain ⟨hw1, hw2, hw3, hw4, hw5, hw6, hw7⟩ :=
      fragment_step_write s cmd st sh r1 hcond
    have hbit : ota_check_if_fragment_already_received
        (ota_manage_fragment_command s cmd st sh r1).params cmd.fragment_id = true := by
      unfold ota_check_if_fragment_already_received
      rw [hw1, hw5]
      unfold setFragmentBit
      rw [fragmentBitSet_or _ _ _ _ hlen hf0 hfid8 hf0 hfid8]
      simp
    have hnc2 : ¬FragWriteCond (ota_manage_fragment_command s cmd st sh r1) cmd := by
      intro h
      rw [h.2.2.2.2.2.2] at hbit
      exact Bool.false_ne_true hbit
    obtain ⟨hp, hwl, _⟩ :=
      fragment_step_nowrite (ota_manage_fragment_command s cmd st sh r1)
        cmd st sh r2 hw6 hnc2
    exact ⟨by rw [hp], by rw [hwl]⟩
  · obtain ⟨hp, hwl, hsv⟩ := fragment_step_nowrite s cmd st sh r1 hsvc hcond
    have hnc2 : ¬FragWriteCond (ota_manage_fragment_command s cmd st sh r1) cmd := by
      intro h
      obtain ⟨a, b, c, d, e, fsvc, g⟩ := h
      rw [hp] at a e g
      apply hcond
      refine ⟨a, ?_, c, d, e, hsvc, g⟩
      rcases b with b | b | b
      · rw [hp] at b
        exact Or.inl b
      · rw [hp] at b
        exact Or.inr (Or.inl b)
      · rw [hsv] at b
        exact absurd b (by simp)
    obtain ⟨hp2, hwl2, _⟩ :=
      fragment_step_nowrite (ota_manage_fragment_command s cmd st sh r1)
        cmd st sh r2 hsv hnc2
    exact ⟨by rw [hp2, hp], by rw [hwl2, hwl]⟩

theorem bitSet_getElem (mask : List Nat) (len i j : Nat) (hi : i < len)
    (hlen : mask.length = len) (hj : j < 8) :
    fragmentBitSet mask len (8 * (len - 1 - i) + j + 1) =
      (mask.getD i 0).testBit j := by
  rw [fragmentBitSet_testBit]
  have hidx : fragBitIdx len (8 * (len - 1 - i) + j + 1) = i := by
    unfold fragBitIdx
    have hq : (8 * (len - 1 - i) + j + 1 - 1) / 8 = len - 1 - i := by omega
    rw [hq]
    omega
  have hpos : fragBitPos (8 * (len - 1 - i) + j + 1) = j := by
    unfold fragBitPos
    omega
  rw [hidx, hpos]

theorem applyFragments_set_determined (st : Nat → Nat) (sh : List Nat → List Nat)
    (s : OtaLib) (l1 l2 : List FragmentCmd)
    (hInv : ReceivingInvariant s)
    (hv1 : ∀ c ∈ l1, ValidFragment s c) (hv2 : ∀ c ∈ l2, ValidFragment s c)
    (hmem : ∀ f, f ∈ l1.map FragmentCmd.fragment_id ↔
      f ∈ l2.map FragmentCmd.fragment_id) :
    (applyFragments s l1 st sh).params.fragments_bitmask =
      (applyFragments s l2 st sh).params.fragments_bitmask := by
  obtain ⟨hInvA, _, _, hlenA, hcharA⟩ := applyFragments_master st sh l1 s hInv hv1
  obtain ⟨hInvB, _, _, hlenB, hcharB⟩ := applyFragments_master st sh l2 s hInv hv2
  have hLA : (applyFragments s l1 st sh).params.fragments_bitmask.length =
      s.params.fragments_bitmask_length := by
    rw [hInvA.2.1, hlenA]
  have hLB : (applyFragments s l2 st sh).params.fragments_bitmask.length =
      s.params.fragments_bitmask_length := by
    rw [hInvB.2.1, hlenB]
  apply List.ext_getElem (by rw [hLA, hLB])
  intro i h1 h2
  apply Nat.eq_of_testBit_eq
  intro j
  by_cases hj : j < 8
  · have hi : i < s.params.fragments_bitmask_length := by omega
    have hf1 : 1 ≤ 8 * (s.params.fragments_bitmask_length - 1 - i) + j + 1 := by omega
    have hf2 : 8 * (s.params.fragments_bitmask_length - 1 - i) + j + 1 ≤
        8 * s.params.fragments_bitmask_length := by omega
    have hA := bitSet_getElem (applyFragments s l1 st sh).params.fragments_bitmask
      s.params.fragments_bitmask_length i j hi hLA hj
    have hB := bitSet_getElem (applyFragments s l2 st sh).params.fragments_bitmask
      s.params.fragments_bitmask_length i j hi hLB hj
    have hgA : (applyFragments s l1 st sh).params.fragments_bitmask.getD i 0 =
        (applyFragments s l1 st sh).params.fragments_bitmask[i] :=
      List.getD_eq_getElem _ _ h1
    have hgB : (applyFragments s l2 st sh).params.fragments_bitmask.getD i 0 =
        (applyFragments s l2 st sh).params.fragments_bitmask[i] :=
      List.getD_eq_getElem _ _ h2
    rw [hgA] at hA
    rw [hgB] at hB
    rw [← hA, ← hB]
    rw [hcharA _ hf1 hf2, hcharB _ hf1 hf2]
    have hdec : decide ((8 * (s.params.fragments_bitmask_length - 1 - i) + j + 1) ∈
          l1.map FragmentCmd.fragment_id) =
        decide ((8 * (s.params.fragments_bitmask_length - 1 - i) + j + 1) ∈
          l2.map FragmentCmd.fragment_id) := by
      rw [decide_eq_decide]
      exact hmem _
    rw [hdec]
  · have hbA : (applyFragments s l1 st sh).params.fragments_bitmask[i] < 2 ^ j := by
      have hb := hInvA.2.2.2.2.1 _ (List.getElem_mem h1)
      calc (applyFragments s l1 st sh).params.fragments_bitmask[i] < 256 := hb
        _ = 2 ^ 8 := by norm_num
        _ ≤ 2 ^ j := Nat.pow_le_pow_right (by norm_num) (by omega)
    have hbB : (applyFragments s l2 st sh).params.fragments_bitmask[i] < 2 ^ j := by
      have hb := hInvB.2.2.2.2.1 _ (List.getElem_mem h2)
      calc (applyFragments s l2 st sh).params.fragments_bitmask[i] < 256 := hb
        _ = 2 ^ 8 := by norm_num
        _ ≤ 2 ^ j := Nat.pow_le_pow_right (by norm_num) (by omega)
    rw [Nat.testBit_lt_two_pow hbA, Nat.testBit_lt_two_pow hbB]

/-- Claim C6: on a receiving node (state STARTED or
MISSING_FRAGMENTS_REQUESTING, no fragments-request service, a well-formed
bitmask), processing a valid FRAGMENT command twice leaves the fragment
bitmask unchanged by the second processing and performs no second storage
write; and the bitmask after any arrival order of valid fragments
(duplicates included) depends only on the set of fragment ids received. -/
theorem claim_C6_fragment_idempotent_set_determined (s : OtaLib)
    (st : Nat → Nat) (sh : List Nat → List Nat)
    (hInv : ReceivingInvariant s)
    (hrecv : s.params.ota_state = .STARTED ∨
      s.params.ota_state = .MISSING_FRAGMENTS_REQUESTING) :
    (∀ (cmd : FragmentCmd) (r1 r2 : Nat), ValidFragment s cmd →
      (ota_manage_fragment_command (ota_manage_fragment_command s cmd st sh r1)
          cmd st sh r2).params.fragments_bitmask =
          (ota_manage_fragment_command s cmd st sh r1).params.fragments_bitmask ∧
        (ota_manage_fragment_command (ota_manage_fragment_command s cmd st sh r1)
            cmd st sh r2).write_log =
          (ota_manage_fragment_command s cmd st sh r1).write_log) ∧
      (∀ l1 l2 : List FragmentCmd,
        (∀ c ∈ l1, ValidFragment s c) → (∀ c ∈ l2, ValidFragment s c) →
        (∀ f, f ∈ l1.map FragmentCmd.fragment_id ↔
          f ∈ l2.map FragmentCmd.fragment_id) →
        (applyFragments s l1 st sh).params.fragments_bitmask =
          (applyFragments s l2 st sh).params.fragments_bitmask) := by
  have _hrecv := hrecv
  exact ⟨fun cmd r1 r2 hval => fragment_step_idem s cmd st sh r1 r2 hInv hval,
    fun l1 l2 hv1 hv2 hmem =>
      applyFragments_set_determined st sh s l1 l2 hInv hv1 hv2 hmem⟩

/-- Witness for C6 at the concrete receiving state. -/
theorem claim_C6_fragment_idempotent_set_determined_witness :
    ReceivingInvariant exampleReceivingState ∧
      (exampleReceivingState.params.ota_state = .STARTED ∨
        exampleReceivingState.params.ota_state = .MISSING_FRAGMENTS_REQUESTING) ∧
      ((∀ (cmd : FragmentCmd) (r1 r2 : Nat), ValidFragment exampleReceivingState cmd →
        (ota_manage_fragment_command
            (ota_manage_fragment_command exampleReceivingState cmd (fun i => i)
              (fun l => l) r1) cmd (fun i => i) (fun l => l) r2).params.fragments_bitmask =
            (ota_manage_fragment_command exampleReceivingState cmd (fun i => i)
              (fun l => l) r1).params.fragments_bitmask ∧
          (ota_manage_fragment_command
              (ota_manage_fragment_command exampleReceivingState cmd (fun i => i)
                (fun l => l) r1) cmd (fun i => i) (fun l => l) r2).write_log =
            (ota_manage_fragment_command exampleReceivingState cmd (fun i => i)
              (fun l => l) r1).write_log) ∧
        (∀ l1 l2 : List FragmentCmd,
          (∀ c ∈ l1, ValidFragment exampleReceivingState c) →
          (∀ c ∈ l2, ValidFragment exampleReceivingState c) →
          (∀ f, f ∈ l1.map FragmentCmd.fragment_id ↔
            f ∈ l2.map FragmentCmd.fragment_id) →
          (applyFragments exampleReceivingState l1 (fun i => i)
              (fun l => l)).params.fragments_bitmask =
            (applyFragments exampleReceivingState l2 (fun i => i)
              (fun l => l)).params.fragments_bitmask)) := by
  have hInv : ReceivingInvariant exampleReceivingState :=
    ⟨rfl, by decide, by decide, by decide, by decide, fun h => absurd rfl h.1⟩
  exact ⟨hInv, Or.inl rfl,
    claim_C6_fragment_idempotent_set_determined exampleReceivingState
      (fun i => i) (fun l => l) hInv (Or.inl rfl)⟩

theorem fragment_invalid_drop (s : OtaLib) (cmd : FragmentCmd)
    (st : Nat → Nat) (sh : List Nat → List Nat) (r : Nat)
    (hinv : ¬(cmd.checksum = ota_calculate_checksum_over_one_fragment cmd.fragment_bytes ∧
      0 < cmd.fragment_id ∧ cmd.fragment_id ≤ s.params.fw_fragment_count)) :
    (ota_manage_fragment_command s cmd st sh r).params.fragments_bitmask =
        s.params.fragments_bitmask ∧
      (ota_manage_fragment_command s cmd st sh r).write_log = s.write_log := by
  unfold ota_manage_fragment_command
  by_cases hsid : cmd.session_id = s.params.ota_session_id
  · rw [if_neg (not_not_intro hsid)]
    by_cases hgate : s.params.ota_state ≠ .STARTED ∧
        s.params.ota_state ≠ .MISSING_FRAGMENTS_REQUESTING ∧
        s.fragments_request_service = false
    · rw [if_pos hgate]
      exact ⟨rfl, rfl⟩
    · rw [if_neg hgate]
      dsimp only
      rw [if_neg hinv]
      split_ifs <;> exact ⟨rfl, rfl⟩
  · rw [if_pos (by exact hsid)]
    exact ⟨rfl, rfl⟩

/-- Claim C7: every FRAGMENT command whose fragment id is 0 or greater than
`fw_fragment_count`, and every FRAGMENT command whose transmitted CRC
differs from the CRC recomputed over its payload, is dropped: the fragment
bitmask is unchanged and no firmware bytes are written to storage. -/
theorem claim_C7_invalid_fragment_dropped (s : OtaLib) (cmd : FragmentCmd)
    (st : Nat → Nat) (sh : List Nat → List Nat) (r : Nat)
    (hinvalid : cmd.fragment_id = 0 ∨
      s.params.fw_fragment_count < cmd.fragment_id ∨
      cmd.checksum ≠ ota_calculate_checksum_over_one_fragment cmd.fragment_bytes) :
    (ota_manage_fragment_command s cmd st sh r).params.fragments_bitmask =
        s.params.fragments_bitmask ∧
      (ota_manage_fragment_command s cmd st sh r).write_log = s.write_log := by
  apply fragment_invalid_drop
  intro ⟨h1, h2, h3⟩
  rcases hinvalid with h | h | h
  · omega
  · omega
  · exact h h1

/-- Witness for C7: a fragment with a corrupted CRC at the concrete
receiving state. -/
theorem claim_C7_invalid_fragment_dropped_witness :
    ((1 : Nat) = 0 ∨ exampleReceivingState.params.fw_fragment_count < 1 ∨
      (0xdead : Nat) ≠ ota_calculate_checksum_over_one_fragment [1, 2, 3, 4]) ∧
      ((ota_manage_fragment_command exampleReceivingState
          { session_id := List.replicate OTA_SESSION_ID_SIZE 7, fragment_id := 1,
            fragment_bytes := [1, 2, 3, 4], checksum := 0xdead }
          (fun i => i) (fun l => l) 0).params.fragments_bitmask =
          exampleReceivingState.params.fragments_bitmask ∧
        (ota_manage_fragment_command exampleReceivingState
            { session_id := List.replicate OTA_SESSION_ID_SIZE 7, fragment_id := 1,
              fragment_bytes := [1, 2, 3, 4], checksum := 0xdead }
            (fun i => i) (fun l => l) 0).write_log =
          exampleReceivingState.write_log) :=
  ⟨by decide,
    claim_C7_invalid_fragment_dropped exampleReceivingState
      { session_id := List.replicate OTA_SESSION_ID_SIZE 7, fragment_id := 1,
        fragment_bytes := [1, 2, 3, 4], checksum := 0xdead }
      (fun i => i) (fun l => l) 0 (by decide)⟩

theorem armedTime_cancel_self (ts : List (OtaTimer × Nat)) (t : OtaTimer) :
    armedTime (cancelTimer ts t) t = none := by
  unfold armedTime cancelTimer
  induction ts with
  | nil => rfl
  | cons p ps ih =>
    by_cases hp : p.1 = t
    · simp only [List.filter_cons, hp]
      simp [hp]
    · simp only [List.filter_cons, hp]
      simp [List.find?_cons, hp]

theorem armedTime_cancel_append (ts : List (OtaTimer × Nat)) (t : OtaTimer) (ms : Nat) :
    armedTime (cancelTimer ts t ++ [(t, ms)]) t = some ms := by
  unfold armedTime cancelTimer
  induction ts with
  | nil => simp [List.find?_cons]
  | cons p ps ih =>
    by_cases hp : p.1 = t
    · simp only [List.filter_cons, hp]
      simp [hp]
    · simp only [List.filter_cons, hp]
      simp [List.find?_cons, hp]

theorem armedTime_cancel_other (ts : List (OtaTimer × Nat)) (t t2 : OtaTimer)
    (h : t ≠ t2) :
    armedTime (cancelTimer ts t2) t = armedTime ts t := by
  unfold armedTime cancelTimer
  induction ts with
  | nil => rfl
  | cons p ps ih =>
    by_cases hp : p.1 = t2
    · have hpt : p.1 ≠ t := by rw [hp]; exact fun he => h he.symm
      simp only [List.filter_cons, hp]
      simpa [List.find?_cons, hpt] using ih
    · by_cases hpt : p.1 = t
      · simp [List.filter_cons, hp, List.find?_cons, hpt, h]
      · simp only [List.filter_cons]
        simpa [List.find?_cons, hp, hpt] using ih

theorem armedTime_start_timer (ts : List (OtaTimer × Nat)) (t : OtaTimer)
    (a w rnd : Nat) :
    armedTime (ota_start_timer ts t a w rnd) t =
      some (a * 1000 + if w ≠ 0 then 100 * (rnd % (w * 10)) else 0) := by
  unfold ota_start_timer
  exact armedTime_cancel_append ts t _

theorem armedTime_requestTimer (ts : List (OtaTimer × Nat)) (t : OtaTimer) (ms : Nat) :
    armedTime (requestTimer ts t ms) t = some ms := by
  unfold requestTimer
  exact armedTime_cancel_append ts t ms

/-- Claim C9: a node in PROCESS_COMPLETED or UPDATE_FW receiving an
ACTIVATE for its own device type with delay d moves to UPDATE_FW, stores
d, and arms the ACTIVATE timer to fire between 2 and 62 seconds later;
further ACTIVATE commands neither re-arm the timer nor change d; on timer
expiry `send_update_fw_cmd_received_info(d)` is invoked once, the timer
leaving the armed set. -/
theorem claim_C9_activate_once (s : OtaLib) (cmd : ActivateCmd) (r : Nat)
    (hstate : s.params.ota_state = .PROCESS_COMPLETED ∨
      s.params.ota_state = .UPDATE_FW)
    (hdt : cmd.device_type = s.config_device_type)
    (hfresh : s.fw_update_received = false) :
    (ota_manage_update_fw_command s cmd r).params.ota_state = .UPDATE_FW ∧
      (ota_manage_update_fw_command s cmd r).update_fw_delay = cmd.delay_seconds ∧
      (ota_manage_update_fw_command s cmd r).fw_update_received = true ∧
      (∃ t, armedTime (ota_manage_update_fw_command s cmd r).armed_timers
          .ACTIVATE_TIMER = some t ∧ 2000 ≤ t ∧ t ≤ 62000) ∧
      (∀ (cmd2 : ActivateCmd) (r2 : Nat),
        (ota_manage_update_fw_command (ota_manage_update_fw_command s cmd r)
            cmd2 r2).update_fw_delay =
          (ota_manage_update_fw_command s cmd r).update_fw_delay ∧
        armedTime (ota_manage_update_fw_command (ota_manage_update_fw_command s cmd r)
            cmd2 r2).armed_timers .ACTIVATE_TIMER =
          armedTime (ota_manage_update_fw_command s cmd r).armed_timers
            .ACTIVATE_TIMER) ∧
      (ota_timer_expired_activate (ota_manage_update_fw_command s cmd r)).sent_info_log =
        s.sent_info_log ++ [cmd.delay_seconds] ∧
      armedTime (ota_timer_expired_activate
          (ota_manage_update_fw_command s cmd r)).armed_timers .ACTIVATE_TIMER =
        none := by
  have hA : ∀ (x : OtaLib), x.params.ota_state = .UPDATE_FW →
      x.fw_update_received = true →
      ∀ (cmd2 : ActivateCmd) (r2 : Nat),
        (ota_manage_update_fw_command x cmd2 r2).update_fw_delay = x.update_fw_delay ∧
        armedTime (ota_manage_update_fw_command x cmd2 r2).armed_timers
            .ACTIVATE_TIMER = armedTime x.armed_timers .ACTIVATE_TIMER := by
    intro x hx hfw cmd2 r2
    unfold ota_manage_update_fw_command
    have hcc : armedTime (cancelTimer (cancelTimer x.armed_timers
        .MISSING_FRAGMENTS_REQUESTING_TIMER) .FALLBACK_TIMER) .ACTIVATE_TIMER =
        armedTime x.armed_timers .ACTIVATE_TIMER := by
      rw [armedTime_cancel_other _ _ _ (by simp),
        armedTime_cancel_other _ _ _ (by simp)]
    by_cases hs : ({ x with armed_timers := (cancelTimer (cancelTimer x.armed_timers
          .MISSING_FRAGMENTS_REQUESTING_TIMER) .FALLBACK_TIMER) } :
          OtaLib).params.ota_state ≠ .PROCESS_COMPLETED ∧
        ({ x with armed_timers := (cancelTimer (cancelTimer x.armed_timers
          .MISSING_FRAGMENTS_REQUESTING_TIMER) .FALLBACK_TIMER) } :
          OtaLib).params.ota_state ≠ .UPDATE_FW
    · exact absurd hx hs.2
    · rw [if_neg hs]
      by_cases hd2 : cmd2.device_type ≠ ({ x with armed_timers :=
          (cancelTimer (cancelTimer x.armed_timers
            .MISSING_FRAGMENTS_REQUESTING_TIMER) .FALLBACK_TIMER) } :
          OtaLib).config_device_type
      · rw [if_pos hd2]
        exact ⟨rfl, hcc⟩
      · rw [if_neg hd2]
        rw [if_neg (by simp [hfw, hx])]
        rw [if_neg (by simp [hfw])]
        exact ⟨rfl, hcc⟩
  have hmain : (ota_manage_update_fw_command s cmd r).params.ota_state = .UPDATE_FW ∧
      (ota_manage_update_fw_command s cmd r).update_fw_delay = cmd.delay_seconds ∧
      (ota_manage_update_fw_command s cmd r).fw_update_received = true ∧
      (ota_manage_update_fw_command s cmd r).sent_info_log = s.sent_info_log ∧
      armedTime (ota_manage_update_fw_command s cmd r).armed_timers .ACTIVATE_TIMER =
        some (OTA_NOTIFICATION_TIMER_DELAY * 1000 +
          100 * (r % (OTA_TIMER_RANDOM_WINDOW * 10))) := by
    unfold ota_manage_update_fw_command
    rw [if_neg (by
      intro hx
      rcases hstate with h1 | h1
      · exact hx.1 h1
      · exact hx.2 h1)]
    rw [if_neg (not_not_intro hdt)]
    have harm := armedTime_start_timer (cancelTimer (cancelTimer s.armed_timers
      .MISSING_FRAGMENTS_REQUESTING_TIMER) .FALLBACK_TIMER) .ACTIVATE_TIMER
      OTA_NOTIFICATION_TIMER_DELAY OTA_TIMER_RANDOM_WINDOW r
    rcases hstate with h1 | h1
    · rw [if_pos (by simp [hfresh, h1])]
      rw [if_pos (by simp [hfresh])]
      dsimp only
      refine ⟨rfl, rfl, rfl, rfl, ?_⟩
      rw [harm]
      norm_num [OTA_TIMER_RANDOM_WINDOW]
    · rw [if_neg (by simp [hfresh, h1])]
      rw [if_pos (by simp [hfresh])]
      dsimp only
      refine ⟨h1, rfl, rfl, rfl, ?_⟩
      rw [harm]
      norm_num [OTA_TIMER_RANDOM_WINDOW]
  obtain ⟨hm1, hm2, hm3, hm4, hm5⟩ := hmain
  refine ⟨hm1, hm2, hm3, ?_, hA _ hm1 hm3, ?_, ?_⟩
  · refine ⟨OTA_NOTIFICATION_TIMER_DELAY * 1000 +
      100 * (r % (OTA_TIMER_RANDOM_WINDOW * 10)), hm5, ?_, ?_⟩
    · unfold OTA_NOTIFICATION_TIMER_DELAY
      omega
    · unfold OTA_NOTIFICATION_TIMER_DELAY OTA_TIMER_RANDOM_WINDOW
      have := Nat.mod_lt r (y := 600) (by norm_num)
      omega
  · unfold ota_timer_expired_activate
    rw [if_pos (Or.inr (by simp [hm1]))]
    dsimp only
    rw [hm4, hm2]
  · unfold ota_timer_expired_activate
    dsimp only
    split_ifs <;> exact armedTime_cancel_self _ _

/-- Witness for C9: a PROCESS_COMPLETED node receives ACTIVATE with
delay 10 and random draw 77. -/
theorem claim_C9_activate_once_witness :
    ({ exampleReceivingState with params :=
        { exampleReceivingState.params with ota_state := .PROCESS_COMPLETED } } :
        OtaLib).params.ota_state = .PROCESS_COMPLETED ∧
      (({ session_id := List.replicate OTA_SESSION_ID_SIZE 7,
          device_type := OTA_DEVICE_TYPE_NODE, delay_seconds := 10 } :
            ActivateCmd).device_type =
        ({ exampleReceivingState with params :=
            { exampleReceivingState.params with ota_state := .PROCESS_COMPLETED } } :
            OtaLib).config_device_type) ∧
      (ota_manage_update_fw_command
          { exampleReceivingState with params :=
            { exampleReceivingState.params with ota_state := .PROCESS_COMPLETED } }
          { session_id := List.replicate OTA_SESSION_ID_SIZE 7,
            device_type := OTA_DEVICE_TYPE_NODE, delay_seconds := 10 }
          77).params.ota_state = .UPDATE_FW ∧
      (ota_timer_expired_activate (ota_manage_update_fw_command
          { exampleReceivingState with params :=
            { exampleReceivingState.params with ota_state := .PROCESS_COMPLETED } }
          { session_id := List.replicate OTA_SESSION_ID_SIZE 7,
            device_type := OTA_DEVICE_TYPE_NODE, delay_seconds := 10 }
          77)).sent_info_log = [10] := by
  have h := claim_C9_activate_once
    { exampleReceivingState with params :=
      { exampleReceivingState.params with ota_state := .PROCESS_COMPLETED } }
    { session_id := List.replicate OTA_SESSION_ID_SIZE 7,
      device_type := OTA_DEVICE_TYPE_NODE, delay_seconds := 10 }
    77 (Or.inl rfl) rfl rfl
  exact ⟨rfl, rfl, h.1, h.2.2.2.2.2.1⟩

/-- Claim C2 (code-bug evidence): after one successful session creation,
`ota_add_new_process` accepts a second, different session instead of
failing — the count its guard tests was wiped by the memset that follows
the increment. -/
theorem claim_C2_second_session_accepted :
    ((ota_add_new_process
        { exampleReceivingState with params := zeroedParameters }
        (List.replicate OTA_SESSION_ID_SIZE 1)).2 = .OTA_OK) ∧
      ((ota_add_new_process
          { exampleReceivingState with params := zeroedParameters }
          (List.replicate OTA_SESSION_ID_SIZE 1)).1.params.ota_process_count = 0) ∧
      ((ota_add_new_process
          (ota_add_new_process
            { exampleReceivingState with params := zeroedParameters }
            (List.replicate OTA_SESSION_ID_SIZE 1)).1
          (List.replicate OTA_SESSION_ID_SIZE 2)).2 = .OTA_OK) ∧
      ((ota_add_new_process
          (ota_add_new_process
            { exampleReceivingState with params := zeroedParameters }
            (List.replicate OTA_SESSION_ID_SIZE 1)).1
          (List.replicate OTA_SESSION_ID_SIZE 2)).1.params.ota_session_id =
        List.replicate OTA_SESSION_ID_SIZE 2) := by
  refine ⟨rfl, rfl, rfl, rfl⟩

/-- Claim C10: a successful `ota_add_new_process` leaves
`ota_process_count` at 0 (the whole parameter struct is zeroed after the
increment), so the process-count guard accepts a further creation from the
resulting state, and a duplicate START is rejected by the device-type
check alone with the state unchanged. -/
theorem claim_C10_count_zeroed_guard_dead (s : OtaLib)
    (session_id session_id2 : List Nat)
    (h : (ota_add_new_process s session_id).2 = .OTA_OK) :
    (ota_add_new_process s session_id).1.params.ota_process_count = 0 ∧
      (ota_add_new_process (ota_add_new_process s session_id).1 session_id2).2 =
        .OTA_OK ∧
      ∀ (s1 : OtaLib) (cmd : StartCmd), s1.params.device_type = cmd.device_type →
        ota_manage_start_command s1 cmd = (s1, .OTA_PARAMETER_FAIL) := by
  unfold ota_add_new_process at h ⊢
  by_cases hc : s.params.ota_process_count > 0
  · rw [if_pos hc] at h
    exact absurd h (by simp)
  · rw [if_neg hc]
    refine ⟨rfl, ?_, ?_⟩
    · dsimp only
      rw [if_neg (show ¬zeroedParameters.ota_process_count > 0 by decide)]
    · intro s1 cmd hdt
      unfold ota_manage_start_command
      rw [if_pos hdt]

/-- Witness for C10 from a fresh state. -/
theorem claim_C10_count_zeroed_guard_dead_witness :
    ((ota_add_new_process { exampleReceivingState with params := zeroedParameters }
        (List.replicate OTA_SESSION_ID_SIZE 1)).2 = .OTA_OK) ∧
      ((ota_add_new_process { exampleReceivingState with params := zeroedParameters }
          (List.replicate OTA_SESSION_ID_SIZE 1)).1.params.ota_process_count = 0 ∧
        (ota_add_new_process
            (ota_add_new_process { exampleReceivingState with params := zeroedParameters }
              (List.replicate OTA_SESSION_ID_SIZE 1)).1
            (List.replicate OTA_SESSION_ID_SIZE 2)).2 = .OTA_OK ∧
        ∀ (s1 : OtaLib) (cmd : StartCmd), s1.params.device_type = cmd.device_type →
          ota_manage_start_command s1 cmd = (s1, .OTA_PARAMETER_FAIL)) :=
  ⟨rfl, claim_C10_count_zeroed_guard_dead
    { exampleReceivingState with params := zeroedParameters }
    (List.replicate OTA_SESSION_ID_SIZE 1) (List.replicate OTA_SESSION_ID_SIZE 2) rfl⟩

/-- Counterexample to claim C3 as stated: in state UPDATE_FW a matching
ABORT leaves the state at UPDATE_FW instead of ABORTED, and in state
STARTED a matching ABORT moves to ABORTED but cancels no timer (an armed
fallback timer survives). -/
theorem claim_C3_abort_counterexample :
    (ota_manage_abort_command
        { exampleReceivingState with
            params := { exampleReceivingState.params with ota_state := .UPDATE_FW }
            armed_timers := [(.FALLBACK_TIMER, 1800000)] }
        (List.replicate OTA_SESSION_ID_SIZE 7)).params.ota_state = .UPDATE_FW ∧
      (ota_manage_abort_command
          { exampleReceivingState with
              params := { exampleReceivingState.params with ota_state := .UPDATE_FW }
              armed_timers := [(.FALLBACK_TIMER, 1800000)] }
          (List.replicate OTA_SESSION_ID_SIZE 7)).params.ota_state ≠ .ABORTED ∧
      (ota_manage_abort_command
          { exampleReceivingState with
              armed_timers := [(.FALLBACK_TIMER, 1800000)] }
          (List.replicate OTA_SESSION_ID_SIZE 7)).params.ota_state = .ABORTED ∧
      (ota_manage_abort_command
          { exampleReceivingState with
              armed_timers := [(.FALLBACK_TIMER, 1800000)] }
          (List.replicate OTA_SESSION_ID_SIZE 7)).armed_timers =
        [(.FALLBACK_TIMER, 1800000)] := by
  refine ⟨rfl, by decide, rfl, rfl⟩

/-- Claim C3 (amended): for every state other than ABORTED and UPDATE_FW,
a matching ABORT moves the state to ABORTED, frees the SHA-256 context
when checksum calculation was in progress, clears the request-service and
delivering flags, and keeps the session record in place; armed timers are
left untouched. -/
theorem claim_C3_abort_amended (s : OtaLib) (session_id : List Nat)
    (hsid : session_id = s.params.ota_session_id)
    (hne1 : s.params.ota_state ≠ .ABORTED)
    (hne2 : s.params.ota_state ≠ .UPDATE_FW) :
    (ota_manage_abort_command s session_id).params.ota_state = .ABORTED ∧
      (s.params.ota_state = .CHECKSUM_CALCULATING →
        (ota_manage_abort_command s session_id).sha_ctx = none) ∧
      (s.params.ota_state ≠ .CHECKSUM_CALCULATING →
        (ota_manage_abort_command s session_id).sha_ctx = s.sha_ctx) ∧
      (ota_manage_abort_command s session_id).armed_timers = s.armed_timers ∧
      (ota_manage_abort_command s session_id).params.ota_session_id =
        s.params.ota_session_id ∧
      (ota_manage_abort_command s session_id).params.fragments_bitmask =
        s.params.fragments_bitmask ∧
      (ota_manage_abort_command s session_id).fragments_request_service = false ∧
      (ota_manage_abort_command s session_id).fw_delivering = false := by
  unfold ota_manage_abort_command
  rw [if_neg (not_not_intro hsid)]
  dsimp only
  by_cases hcs : s.params.ota_state = .CHECKSUM_CALCULATING
  · rw [if_pos hcs]
    rw [if_pos hne1, if_pos hne2]
    exact ⟨rfl, fun _ => rfl, fun h => absurd hcs h, rfl, rfl, rfl, rfl, rfl⟩
  · rw [if_neg hcs]
    rw [if_pos hne1, if_pos hne2]
    exact ⟨rfl, fun h => absurd h hcs, fun _ => rfl, rfl, rfl, rfl, rfl, rfl⟩

/-- Witness for amended C3 at the STARTED example state. -/
theorem claim_C3_abort_amended_witness :
    (List.replicate OTA_SESSION_ID_SIZE 7 =
        exampleReceivingState.params.ota_session_id) ∧
      exampleReceivingState.params.ota_state ≠ .ABORTED ∧
      exampleReceivingState.params.ota_state ≠ .UPDATE_FW ∧
      ((ota_manage_abort_command exampleReceivingState
          (List.replicate OTA_SESSION_ID_SIZE 7)).params.ota_state = .ABORTED ∧
        (exampleReceivingState.params.ota_state = .CHECKSUM_CALCULATING →
          (ota_manage_abort_command exampleReceivingState
            (List.replicate OTA_SESSION_ID_SIZE 7)).sha_ctx = none) ∧
        (exampleReceivingState.params.ota_state ≠ .CHECKSUM_CALCULATING →
          (ota_manage_abort_command exampleReceivingState
            (List.replicate OTA_SESSION_ID_SIZE 7)).sha_ctx =
            exampleReceivingState.sha_ctx) ∧
        (ota_manage_abort_command exampleReceivingState
          (List.replicate OTA_SESSION_ID_SIZE 7)).armed_timers =
          exampleReceivingState.armed_timers ∧
        (ota_manage_abort_command exampleReceivingState
          (List.replicate OTA_SESSION_ID_SIZE 7)).params.ota_session_id =
          exampleReceivingState.params.ota_session_id ∧
        (ota_manage_abort_command exampleReceivingState
          (List.replicate OTA_SESSION_ID_SIZE 7)).params.fragments_bitmask =
          exampleReceivingState.params.fragments_bitmask ∧
        (ota_manage_abort_command exampleReceivingState
          (List.replicate OTA_SESSION_ID_SIZE 7)).fragments_request_service = false ∧
        (ota_manage_abort_command exampleReceivingState
          (List.replicate OTA_SESSION_ID_SIZE 7)).fw_delivering = false) :=
  ⟨by decide, by decide, by decide,
    claim_C3_abort_amended exampleReceivingState
      (List.replicate OTA_SESSION_ID_SIZE 7) (by decide) (by decide) (by decide)⟩

/-- Claim C4: in state CHECKSUM_CALCULATING with an allocated hash
context, one CHECKSUM timer round reads exactly
`min(512, fw_total_byte_count - current_byte_id)` bytes from storage at
the cursor and feeds them to the hasher, advancing the cursor by the
amount read; when the cursor reaches the total the hash is finalized and
compared byte-exactly to `whole_fw_checksum_tbl` — PROCESS_COMPLETED on a
match, CHECKSUM_FAILED on a mismatch — and otherwise the CHECKSUM timer
is re-armed. -/
theorem claim_C4_checksum_slice (s : OtaLib) (st : Nat → Nat)
    (sh : List Nat → List Nat) (r : Nat) (fed : List Nat)
    (hstate : s.params.ota_state = .CHECKSUM_CALCULATING)
    (hctx : s.sha_ctx = some fed)
    (hcur : s.checksum_cursor ≤ s.params.fw_total_byte_count) :
    (s.checksum_cursor + min OTA_CHECKSUM_CALCULATING_BYTE_COUNT
        (s.params.fw_total_byte_count - s.checksum_cursor) <
        s.params.fw_total_byte_count →
      (ota_manage_whole_fw_checksum_calculating s st sh r).sha_ctx =
          some (fed ++ (List.range (min OTA_CHECKSUM_CALCULATING_BYTE_COUNT
            (s.params.fw_total_byte_count - s.checksum_cursor))).map
            (fun i => st (s.checksum_cursor + i))) ∧
        (ota_manage_whole_fw_checksum_calculating s st sh r).checksum_cursor =
          s.checksum_cursor + min OTA_CHECKSUM_CALCULATING_BYTE_COUNT
            (s.params.fw_total_byte_count - s.checksum_cursor) ∧
        (ota_manage_whole_fw_checksum_calculating s st sh r).params.ota_state =
          .CHECKSUM_CALCULATING ∧
        armedTime (ota_manage_whole_fw_checksum_calculating s st sh r).armed_timers
          .CHECKSUM_CALCULATING_TIMER = some OTA_CHECKSUM_CALCULATING_INTERVAL) ∧
      (s.checksum_cursor + min OTA_CHECKSUM_CALCULATING_BYTE_COUNT
          (s.params.fw_total_byte_count - s.checksum_cursor) =
          s.params.fw_total_byte_count →
        (ota_manage_whole_fw_checksum_calculating s st sh r).sha_ctx = none ∧
          (ota_manage_whole_fw_checksum_calculating s st sh r).checksum_cursor =
            s.params.fw_total_byte_count ∧
          (sh (fed ++ (List.range (min OTA_CHECKSUM_CALCULATING_BYTE_COUNT
              (s.params.fw_total_byte_count - s.checksum_cursor))).map
              (fun i => st (s.checksum_cursor + i))) =
              s.params.whole_fw_checksum_tbl →
            (ota_manage_whole_fw_checksum_calculating s st sh r).params.ota_state =
              .PROCESS_COMPLETED) ∧
          (sh (fed ++ (List.range (min OTA_CHECKSUM_CALCULATING_BYTE_COUNT
              (s.params.fw_total_byte_count - s.checksum_cursor))).map
              (fun i => st (s.checksum_cursor + i))) ≠
              s.params.whole_fw_checksum_tbl →
            (ota_manage_whole_fw_checksum_calculating s st sh r).params.ota_state =
              .CHECKSUM_FAILED)) := by
  unfold ota_manage_whole_fw_checksum_calculating
  rw [if_pos hstate, hctx]
  dsimp only
  have hpush : (if s.checksum_cursor + OTA_CHECKSUM_CALCULATING_BYTE_COUNT >
        s.params.fw_total_byte_count
      then s.params.fw_total_byte_count - s.checksum_cursor
      else OTA_CHECKSUM_CALCULATING_BYTE_COUNT) =
      min OTA_CHECKSUM_CALCULATING_BYTE_COUNT
        (s.params.fw_total_byte_count - s.checksum_cursor) := by
    unfold OTA_CHECKSUM_CALCULATING_BYTE_COUNT
    split_ifs <;> omega
  rw [hpush]
  constructor
  · intro hlt
    rw [if_neg (by omega)]
    exact ⟨rfl, rfl, hstate, armedTime_requestTimer _ _ _⟩
  · intro heq
    rw [if_pos heq]
    by_cases hshh : sh (fed ++ (List.range (min OTA_CHECKSUM_CALCULATING_BYTE_COUNT
        (s.params.fw_total_byte_count - s.checksum_cursor))).map
        (fun i => st (s.checksum_cursor + i))) = s.params.whole_fw_checksum_tbl
    · rw [if_pos hshh]
      split_ifs
      · exact ⟨rfl, heq, fun _ => rfl, fun hne => absurd hshh hne⟩
      · exact ⟨rfl, heq, fun _ => rfl, fun hne => absurd hshh hne⟩
    · rw [if_neg hshh]
      exact ⟨rfl, heq, fun hx => absurd hx hshh, fun _ => rfl⟩

/-- Witness for C4: a 4-byte image whose stored checksum equals the
identity hash of storage bytes 0..3, finished in one round. -/
theorem claim_C4_checksum_slice_witness :
    ({ exampleReceivingState with
        params := { exampleReceivingState.params with
          ota_state := .CHECKSUM_CALCULATING
          fw_total_byte_count := 4
          whole_fw_checksum_tbl := [0, 1, 2, 3] }
        sha_ctx := some []
        checksum_cursor := 0 } : OtaLib).params.ota_state =
        .CHECKSUM_CALCULATING ∧
      ({ exampleReceivingState with
          params := { exampleReceivingState.params with
            ota_state := .CHECKSUM_CALCULATING
            fw_total_byte_count := 4
            whole_fw_checksum_tbl := [0, 1, 2, 3] }
          sha_ctx := some []
          checksum_cursor := 0 } : OtaLib).checksum_cursor ≤
        ({ exampleReceivingState with
            params := { exampleReceivingState.params with
              ota_state := .CHECKSUM_CALCULATING
              fw_total_byte_count := 4
              whole_fw_checksum_tbl := [0, 1, 2, 3] }
            sha_ctx := some []
            checksum_cursor := 0 } : OtaLib).params.fw_total_byte_count ∧
      (ota_manage_whole_fw_checksum_calculating
          { exampleReceivingState with
              params := { exampleReceivingState.params with
                ota_state := .CHECKSUM_CALCULATING
                fw_total_byte_count := 4
                whole_fw_checksum_tbl := [0, 1, 2, 3] }
              sha_ctx := some []
              checksum_cursor := 0 }
          (fun i => i) (fun l => l) 0).sha_ctx = none ∧
      (ota_manage_whole_fw_checksum_calculating
          { exampleReceivingState with
              params := { exampleReceivingState.params with
                ota_state := .CHECKSUM_CALCULATING
                fw_total_byte_count := 4
                whole_fw_checksum_tbl := [0, 1, 2, 3] }
              sha_ctx := some []
              checksum_cursor := 0 }
          (fun i => i) (fun l => l) 0).params.ota_state = .PROCESS_COMPLETED := by
  have h := claim_C4_checksum_slice
    { exampleReceivingState with
        params := { exampleReceivingState.params with
          ota_state := .CHECKSUM_CALCULATING
          fw_total_byte_count := 4
          whole_fw_checksum_tbl := [0, 1, 2, 3] }
        sha_ctx := some []
        checksum_cursor := 0 }
    (fun i => i) (fun l => l) 0 [] rfl rfl (by decide)
  have h2 := h.2 (by decide)
  exact ⟨rfl, by decide, h2.1, h2.2.2.1 (by decide)⟩

/-- Counterexample to claim C8 as stated: a border-router FIRMWARE
command for a 1-byte image yields fw_fragment_count = 1 but
fw_segment_count = 0, not the remainder-corrected 1 = ceil(1/128). -/
theorem claim_C8_counterexample :
    (ota_border_router_manage_firmware_command
        { exampleReceivingState with params := zeroedParameters } 1
        { session_id := List.replicate OTA_SESSION_ID_SIZE 3,
          fw_total_byte_count := 1,
          whole_fw_checksum_tbl := List.replicate OTA_WHOLE_FW_CHECKSUM_LENGTH 0,
          pull_url := [] }).1.params.fw_fragment_count = 1 ∧
      (ota_border_router_manage_firmware_command
          { exampleReceivingState with params := zeroedParameters } 1
          { session_id := List.replicate OTA_SESSION_ID_SIZE 3,
            fw_total_byte_count := 1,
            whole_fw_checksum_tbl := List.replicate OTA_WHOLE_FW_CHECKSUM_LENGTH 0,
            pull_url := [] }).1.params.fw_segment_count = 0 ∧
      ¬((ota_border_router_manage_firmware_command
          { exampleReceivingState with params := zeroedParameters } 1
          { session_id := List.replicate OTA_SESSION_ID_SIZE 3,
            fw_total_byte_count := 1,
            whole_fw_checksum_tbl := List.replicate OTA_WHOLE_FW_CHECKSUM_LENGTH 0,
            pull_url := [] }).1.params.fw_segment_count =
        ((ota_border_router_manage_firmware_command
            { exampleReceivingState with params := zeroedParameters } 1
            { session_id := List.replicate OTA_SESSION_ID_SIZE 3,
              fw_total_byte_count := 1,
              whole_fw_checksum_tbl := List.replicate OTA_WHOLE_FW_CHECKSUM_LENGTH 0,
              pull_url := [] }).1.params.fw_fragment_count +
          OTA_SEGMENT_SIZE - 1) / OTA_SEGMENT_SIZE) := by
  refine ⟨rfl, rfl, by decide⟩

/-- Claim C8 (amended): the node parse path stores the
remainder-corrected `⌈fw_fragment_count / OTA_SEGMENT_SIZE⌉`, while the
border-router FIRMWARE path stores the floor
`fw_fragment_count / OTA_SEGMENT_SIZE` with no remainder correction; the
two agree only when OTA_SEGMENT_SIZE divides the fragment count. -/
theorem claim_C8_segment_count_amended :
    (∀ (p : OtaParameters) (cmd : StartCmd),
      (ota_parse_start_command_parameters p cmd).fw_segment_count =
        (cmd.fw_fragment_count + OTA_SEGMENT_SIZE - 1) / OTA_SEGMENT_SIZE) ∧
      ∀ (s : OtaLib) (v : Nat) (cmd : FirmwareCmd),
        (ota_border_router_manage_firmware_command s v cmd).2 = .OTA_OK →
        (ota_border_router_manage_firmware_command s v cmd).1.params.fw_segment_count =
          (ota_border_router_manage_firmware_command s v cmd).1.params.fw_fragment_count /
            OTA_SEGMENT_SIZE := by
  constructor
  · intro p cmd
    unfold ota_parse_start_command_parameters
    dsimp only
    split_ifs with h
    · unfold OTA_SEGMENT_SIZE at *
      omega
    · unfold OTA_SEGMENT_SIZE at *
      omega
  · intro s v cmd h
    unfold ota_border_router_manage_firmware_command at h ⊢
    by_cases hv : v ≠ 1
    · rw [if_pos hv] at h
      exact absurd h (by simp)
    · rw [if_neg hv] at h ⊢
      revert h
      rcases hadd : ota_add_new_process s cmd.session_id with ⟨s1, e⟩
      cases e with
      | OTA_PARAMETER_FAIL =>
        intro h
        exact absurd h (by simp)
      | OTA_OK =>
        intro h
        rfl

/-- Witness for amended C8: a 300-fragment START parse and the 1-byte
border-router FIRMWARE command. -/
theorem claim_C8_segment_count_amended_witness :
    ((ota_parse_start_command_parameters zeroedParameters
        { session_id := List.replicate OTA_SESSION_ID_SIZE 3,
          device_type := OTA_DEVICE_TYPE_NODE, fw_fragment_count := 300,
          fw_fragment_byte_count := 1024, fw_total_byte_count := 307200,
          whole_fw_checksum_tbl :=
            List.replicate OTA_WHOLE_FW_CHECKSUM_LENGTH 0 }).fw_segment_count =
      (300 + OTA_SEGMENT_SIZE - 1) / OTA_SEGMENT_SIZE) ∧
      ((ota_border_router_manage_firmware_command
          { exampleReceivingState with params := zeroedParameters } 1
          { session_id := List.replicate OTA_SESSION_ID_SIZE 3,
            fw_total_byte_count := 1,
            whole_fw_checksum_tbl := List.replicate OTA_WHOLE_FW_CHECKSUM_LENGTH 0,
            pull_url := [] }).2 = .OTA_OK ∧
        (ota_border_router_manage_firmware_command
            { exampleReceivingState with params := zeroedParameters } 1
            { session_id := List.replicate OTA_SESSION_ID_SIZE 3,
              fw_total_byte_count := 1,
              whole_fw_checksum_tbl := List.replicate OTA_WHOLE_FW_CHECKSUM_LENGTH 0,
              pull_url := [] }).1.params.fw_segment_count =
          (ota_border_router_manage_firmware_command
              { exampleReceivingState with params := zeroedParameters } 1
              { session_id := List.replicate OTA_SESSION_ID_SIZE 3,
                fw_total_byte_count := 1,
                whole_fw_checksum_tbl := List.replicate OTA_WHOLE_FW_CHECKSUM_LENGTH 0,
                pull_url := [] }).1.params.fw_fragment_count / OTA_SEGMENT_SIZE) :=
  ⟨claim_C8_segment_count_amended.1 zeroedParameters
      { session_id := List.replicate OTA_SESSION_ID_SIZE 3,
        device_type := OTA_DEVICE_TYPE_NODE, fw_fragment_count := 300,
        fw_fragment_byte_count := 1024, fw_total_byte_count := 307200,
        whole_fw_checksum_tbl := List.replicate OTA_WHOLE_FW_CHECKSUM_LENGTH 0 },
    rfl,
    claim_C8_segment_count_amended.2
      { exampleReceivingState with params := zeroedParameters } 1
      { session_id := List.replicate OTA_SESSION_ID_SIZE 3,
        fw_total_byte_count := 1,
        whole_fw_checksum_tbl := List.replicate OTA_WHOLE_FW_CHECKSUM_LENGTH 0,
        pull_url := [] } rfl⟩

end LibOta
